import Mathlib

/-!
# CEOS-ARD STAC validator: shallow embedding and verification

Shallow embedding of `ceos-ard-validator/src/ceos_ard_validator/validate.py`
and `constants.py`. Python dynamic values are modelled by `PyValue` (one
container level deep: the validator only ever reads one `.get` away from a
property value, so deeper nesting is never inspected); the stateful
`Validator` object is modelled by explicit state passing over `VState`;
Python exceptions by `Except PyErr`. The external collaborators (pystac file
reading, the JSON-Schema validator) are modelled as parameters.
-/

set_option maxHeartbeats 1000000

/-- An atomic Python value. Numeric literals are modelled as integers (the
code never computes with them, it only tests whether `float(...)` succeeds). -/
inductive PyPrim where
  | none : PyPrim
  | str (s : String) : PyPrim
  | num (n : Int) : PyPrim
  | bool (b : Bool) : PyPrim
deriving DecidableEq, Repr

/-- A Python value as the validator inspects them: an atom, a list of atoms,
or a dict of atoms. -/
inductive PyValue where
  | prim (p : PyPrim) : PyValue
  | list (xs : List PyPrim) : PyValue
  | dict (es : List (String × PyPrim)) : PyValue
deriving DecidableEq, Repr

/-- Shorthand for the Python `None` at the `PyValue` level. -/
def PyValue.null : PyValue := PyValue.prim PyPrim.none

/-- Shorthand for a Python string at the `PyValue` level. -/
def PyValue.s (x : String) : PyValue := PyValue.prim (PyPrim.str x)

/-- Python `repr` of an atom. -/
def pyReprP : PyPrim → String
  | PyPrim.none => "None"
  | PyPrim.str s => "\x27" ++ s ++ "\x27"
  | PyPrim.num n => toString n
  | PyPrim.bool b => if b then "True" else "False"

/-- Python `str` of an atom (f-string formatting). -/
def pyStrP : PyPrim → String
  | PyPrim.str s => s
  | p => pyReprP p

/-- Python `str` of a value (f-string formatting; containers use `repr` of
their elements). -/
def pyStr : PyValue → String
  | PyValue.prim p => pyStrP p
  | PyValue.list xs => "[" ++ String.intercalate ", " (xs.map pyReprP) ++ "]"
  | PyValue.dict es =>
      "\x7b" ++
        String.intercalate ", "
          (es.map (fun e => "\x27" ++ e.1 ++ "\x27: " ++ pyReprP e.2)) ++
      "\x7d"

/-- Python `repr` of a (depth-1) value. -/
def pyReprV : PyValue → String
  | PyValue.prim p => pyReprP p
  | PyValue.list xs => "[" ++ String.intercalate ", " (xs.map pyReprP) ++ "]"
  | PyValue.dict es =>
      "\x7b" ++
        String.intercalate ", "
          (es.map (fun e => "\x27" ++ e.1 ++ "\x27: " ++ pyReprP e.2)) ++
      "\x7d"

/-- Python truthiness of an atom. -/
def truthyP : PyPrim → Bool
  | PyPrim.none => false
  | PyPrim.str s => !s.isEmpty
  | PyPrim.num n => n != 0
  | PyPrim.bool b => b

/-- Python truthiness. -/
def truthy : PyValue → Bool
  | PyValue.prim p => truthyP p
  | PyValue.list xs => !xs.isEmpty
  | PyValue.dict es => !es.isEmpty

/-- Python exceptions that can escape the rule evaluation. -/
inductive PyErr where
  | notImplementedError : PyErr
  | typeError : PyErr
  | attributeError : PyErr
deriving DecidableEq, Repr

/-- Outcome of Python `float(value)`. -/
inductive FloatConv where
  | ok : FloatConv
  | valueError : FloatConv
  | typeError : FloatConv
deriving DecidableEq, Repr

/-- Whether Python `float(string)` succeeds: an optionally signed decimal
literal with at most one dot (exponents and inf/nan are not modelled; no
claim depends on them). -/
def isFloatLiteral (s : String) : Bool :=
  let t := s.trim
  let t := if t.startsWith "-" || t.startsWith "+" then t.drop 1 else t
  !t.isEmpty && t.toList.all (fun c => c.isDigit || c == '.')
    && (t.toList.filter (fun c => c == '.')).length ≤ 1
    && t.toList.any Char.isDigit

/-- Python `float(value)` on an atom: numbers and booleans convert, strings
convert when they parse as a float literal (otherwise `ValueError`), `None`
raises `TypeError`. -/
def pyFloat : PyPrim → FloatConv
  | PyPrim.num _ => FloatConv.ok
  | PyPrim.bool _ => FloatConv.ok
  | PyPrim.str s => if isFloatLiteral s then FloatConv.ok else FloatConv.valueError
  | PyPrim.none => FloatConv.typeError

/-- Python `value.get(key)`: only dicts have `.get`; anything else raises
`AttributeError`. A missing key yields `None`. -/
def pyGet (v : PyValue) (key : String) : Except PyErr PyPrim :=
  match v with
  | PyValue.dict es => Except.ok ((es.lookup key).getD PyPrim.none)
  | _ => Except.error PyErr.attributeError

/-- Severity of a diagnostic: the `Error` / `Warning` subclasses of `Result`. -/
inductive Severity where
  | error : Severity
  | warning : Severity
deriving DecidableEq, Repr

/-- A diagnostic (`Result` in the source): message plus optional suggestion,
with the severity given by the concrete subclass. -/
structure Result where
  severity : Severity
  message : String
  suggestion : Option String := Option.none
deriving DecidableEq, Repr

/-- `Error(message)` with no suggestion. -/
def mkError (message : String) : Result :=
  { severity := Severity.error, message := message }

/-- A STAC link: relation type and media type (`link.media_type` may be
`None`). The target is never inspected by the validator. -/
structure Link where
  rel : String
  mediaType : Option String := Option.none
deriving DecidableEq, Repr

/-- A STAC asset: the validator only inspects `asset.roles`
(`Optional[List[str]]`). -/
structure Asset where
  roles : Option (List String)
deriving DecidableEq, Repr

/-- The pystac `Item` fields the validator reads. `datetime` is modelled as
a presence flag (a datetime object is always truthy); `instruments` is read
from `properties` exactly as pystac `common_metadata.instruments` does;
`assets` is the insertion-ordered dict of assets. -/
structure Item where
  geometry : PyValue := PyValue.null
  bbox : PyValue := PyValue.null
  datetime : Bool := false
  properties : List (String × PyValue) := []
  assets : List (String × Asset) := []
  links : List Link := []
  stac_extensions : List String := []
  self_href : String := ""
deriving DecidableEq, Repr

/-- `self.item.properties.get(name)`. -/
def Item.property (item : Item) (name : String) : PyValue :=
  (item.properties.lookup name).getD PyValue.null

/-- pystac `get_single_link(rel)`: the first link with that relation type. -/
def get_single_link (item : Item) (rel : String) : Option Link :=
  item.links.find? (fun l => l.rel == rel)

/-- `constants.SPECIFICATIONS` (a Python list of strings). -/
def SPECIFICATIONS : List PyValue := [PyValue.s "SR", PyValue.s "ST"]

/-- `constants.SPECIFICATION_VERSION`. -/
def SPECIFICATION_VERSION : PyValue := PyValue.s "5.0"

/-- `constants.REQUIRED_EXTENSIONS`. -/
def REQUIRED_EXTENSIONS : List String :=
  [ "https://stac-extensions.github.io/eo/v1.0.0/schema.json",
    "https://stac-extensions.github.io/projection/v1.0.0/schema.json",
    "https://stac-extensions.github.io/raster/v1.1.0/schema.json",
    "https://stac-extensions.github.io/view/v1.0.0/schema.json" ]

/-- The state of the `Validator` object: the item under validation plus the
results accumulated so far. The `defaultdict[str, List[Result]]` aggregator
is represented as the append-only flat list of `(path key, result)` pairs,
from which the per-key ordered lists are recovered by filtering. -/
structure VState where
  item : Item
  results : List (String × Result)
deriving Repr

/-- `self.add_result(name, result)`. -/
def addResult (name : String) (r : Result) (s : VState) : VState :=
  { s with results := s.results ++ [(name, r)] }

/-- Python `str` of a list of strings (f-string formatting of
`media_types` / `values`). -/
def strListRepr (l : List String) : String :=
  "[" ++ String.intercalate ", " (l.map (fun x => "\x27" ++ x ++ "\x27")) ++ "]"

/-- Python `str` of an `Optional[str]`. -/
def optStr : Option String → String
  | Option.none => "None"
  | Option.some s => s

/-- `Validator.validate_extension`: checks one extension. It reads only the
item (and returns an optional `Result`); the external
`JsonSchemaSTACValidator` is modelled by the oracle `schemaOk`, telling for
each extension identifier whether schema validation succeeds. -/
def validate_extension (schemaOk : String → Bool) (item : Item)
    (extension : String) : Option Result :=
  if extension ∈ item.stac_extensions then
    if schemaOk extension then
      Option.none
    else
      Option.some
        { severity := Severity.error,
          message := "object does not pass validation against " ++ extension,
          suggestion := Option.some
            ("Run `ceos-ard validate-jsonschema " ++ item.self_href ++
             "` to see the validation error") }
  else
    Option.some (mkError ("missing required extension: " ++ extension))

/-- The loop body of `Validator.validate_extensions`. -/
def validate_extensions_step (schemaOk : String → Bool) (s : VState)
    (extension : String) : VState :=
  match validate_extension schemaOk s.item extension with
  | Option.some r => addResult "extension" r s
  | Option.none => s

/-- `Validator.validate_extensions`. -/
def validate_extensions (schemaOk : String → Bool) (s : VState) : VState :=
  REQUIRED_EXTENSIONS.foldl (validate_extensions_step schemaOk) s

/-- `Validator.validate_stac_items`: non-null geometry and bbox. -/
def validate_stac_items (s : VState) : VState :=
  let s1 := if truthy s.item.geometry then s
            else addResult "geometry" (mkError "geometry cannot be null") s
  if truthy s1.item.bbox then s1
  else addResult "bbox" (mkError "bbox cannot be null") s1

/-- `Validator.check_property_in`. -/
def check_property_in (name : String) (values : List PyValue) (s : VState) :
    VState :=
  let value := s.item.property name
  if value ∈ values then s
  else
    addResult name
      (mkError (name ++ " is not an expected value: value=" ++ pyStr value ++
        ", expected=[" ++ String.intercalate ", " (values.map pyReprV) ++ "]"))
      s

/-- `Validator.check_property_equal`. -/
def check_property_equal (name : String) (expected : PyValue) (s : VState) :
    VState :=
  let value := s.item.property name
  if value = expected then s
  else
    addResult name
      (mkError (name ++ " is not the expected value: value=" ++ pyStr value ++
        ", expected=" ++ pyStr expected))
      s

/-- `Validator.check_member_is_number`: `float(d.get(name))`, where only
`ValueError` is turned into a diagnostic — a `TypeError` (e.g. from
`float(None)`) escapes, as does the `AttributeError` from `.get` on a
truthy non-dict. -/
def check_member_is_number (p n : String) (s : VState) :
    Except PyErr VState :=
  let d := s.item.property p
  if truthy d then
    match pyGet d n with
    | Except.error e => Except.error e
    | Except.ok value =>
      match pyFloat value with
      | FloatConv.ok => Except.ok s
      | FloatConv.valueError =>
          Except.ok (addResult (p ++ "." ++ n)
            (mkError ("value is not a number: " ++ pyStrP value)) s)
      | FloatConv.typeError => Except.error PyErr.typeError
  else
    Except.ok (addResult p
      (mkError ("expected property is missing: " ++ p ++ "." ++ n)) s)

/-- `Validator.check_property_is_geometric_accuracy`. -/
def check_property_is_geometric_accuracy (name : String) (s : VState) :
    Except PyErr VState :=
  match check_member_is_number name "bias" s with
  | Except.error e => Except.error e
  | Except.ok s1 => check_member_is_number name "stddev" s1

/-- `Validator.check_lowercase`: `any(c.isupper() for c in value)` on a
truthy value. Iterating a truthy non-string is modelled as a `TypeError`
(characters of a string are the only iteration the source performs). -/
def check_lowercase (name : String) (s : VState) : Except PyErr VState :=
  let value := s.item.property name
  if truthy value then
    match value with
    | PyValue.prim (PyPrim.str sv) =>
      if sv.toList.any Char.isUpper then
        Except.ok (addResult name
          (mkError (name ++ " must be lowercase: " ++ sv)) s)
      else Except.ok s
    | _ => Except.error PyErr.typeError
  else Except.ok s

/-- `Validator.check_required_property`. -/
def check_required_property (name : String) (s : VState) : VState :=
  if truthy (s.item.property name) then s
  else addResult name (mkError ("missing required property: " ++ name)) s

/-- The condition `media_types and link.media_type not in media_types` of
`check_link` (note `None not in [...]` is true in Python, so a link with no
media type fails an explicit allowed set). -/
def mediaTypeMismatch (media_types : List String) (link : Link) : Bool :=
  !media_types.isEmpty &&
    !(match link.mediaType with
      | Option.some mt => media_types.contains mt
      | Option.none => false)

/-- `Validator.check_link`. -/
def check_link (rel : String) (media_types : List String)
    (result_type : Severity) (s : VState) : VState :=
  match get_single_link s.item rel with
  | Option.none =>
      addResult ("links[rel=" ++ rel ++ "]")
        { severity := result_type, message := "missing link" } s
  | Option.some link =>
    if mediaTypeMismatch media_types link then
      addResult ("links[rel=" ++ rel ++ "]")
        { severity := result_type,
          message := "invalid media type: actual=" ++ optStr link.mediaType ++
            ", expected=" ++ strListRepr media_types }
        s
    else s

/-- `Validator.validate_algorithms`. -/
def validate_algorithms (s : VState) : VState :=
  if !truthy (s.item.property "processing:software") &&
      (get_single_link s.item "about").isNone then
    addResult "about"
      (mkError ("item must have either property `processing:software` or a " ++
        "link with with a relation type `about`"))
      s
  else s

/-- `Validator.is_st`. -/
def is_st (s : VState) : Bool :=
  decide (s.item.property "card4l:specification" = PyValue.s "ST")

/-- `Validator.is_sr`. -/
def is_sr (s : VState) : Bool :=
  decide (s.item.property "card4l:specification" = PyValue.s "SR")

/-- `Validator.validate_links`. -/
def validate_links (s : VState) : VState :=
  let s1 := check_link "card4l-document"
    [ "application/vnd.openxmlformats-officedocument.wordprocessingml.document",
      "application/pdf" ] Severity.error s
  let s2 := validate_algorithms s1
  let s3 := check_link "access" [] Severity.warning s2
  if is_st s3 then
    check_link "atmosphere-emissivity" [] Severity.error s3
  else if is_sr s3 then
    let s4 := check_link "measurement-normalization" [] Severity.error s3
    let s5 := check_link "atmospheric-scattering" [] Severity.error s4
    let s6 := check_link "water-vapor" [] Severity.error s5
    check_link "ozone" [] Severity.error s6
  else s3

/-- `Validator.validate_data_asset` (a currently empty extension point). -/
def validate_data_asset (_asset : Asset) (s : VState) : VState := s

/-- `Validator.validate_date_asset`. -/
def validate_date_asset (_asset : Asset) (s : VState) : VState := s

/-- `Validator.validate_incomplete_testing_asset`. -/
def validate_incomplete_testing_asset (_asset : Asset) (s : VState) : VState := s

/-- `Validator.validate_saturation_asset`. -/
def validate_saturation_asset (_asset : Asset) (s : VState) : VState := s

/-- `Validator.validate_cloud_asset`. -/
def validate_cloud_asset (_asset : Asset) (s : VState) : VState := s

/-- `Validator.validate_cloud_shadow_asset`. -/
def validate_cloud_shadow_asset (_asset : Asset) (s : VState) : VState := s

/-- `Validator.validate_snow_ice_asset`. -/
def validate_snow_ice_asset (_asset : Asset) (s : VState) : VState := s

/-- `Validator.validate_land_water_asset`. -/
def validate_land_water_asset (_asset : Asset) (s : VState) : VState := s

/-- `Validator.validate_incidence_angle_asset`. -/
def validate_incidence_angle_asset (_asset : Asset) (s : VState) : VState := s

/-- `Validator.validate_azimuth_asset`. -/
def validate_azimuth_asset (_asset : Asset) (s : VState) : VState := s

/-- `Validator.validate_sun_azimuth_asset`. -/
def validate_sun_azimuth_asset (_asset : Asset) (s : VState) : VState := s

/-- `Validator.validate_sun_elevation_asset`. -/
def validate_sun_elevation_asset (_asset : Asset) (s : VState) : VState := s

/-- `Validator.validate_terrain_shadow_asset`. -/
def validate_terrain_shadow_asset (_asset : Asset) (s : VState) : VState := s

/-- `Validator.validate_terrain_occlusion_asset`. -/
def validate_terrain_occlusion_asset (_asset : Asset) (s : VState) : VState := s

/-- `Validator.validate_terrain_illumination_asset`. -/
def validate_terrain_illumination_asset (_asset : Asset) (s : VState) : VState := s

/-- `Validator.validate_asset`. The accumulator is `Optional[List[str]]`
because the roles-empty branch in the source is a bare `return`, which yields
Python `None`; `seen_required_roles.append(...)` on `None` then raises
`AttributeError`. Branches that do not append return the accumulator as
received (even when it is `None`). -/
def validate_asset (s : VState) (asset : Asset)
    (seen_required_roles : Option (List String)) :
    Except PyErr (VState × Option (List String)) :=
  match asset.roles with
  | Option.none => Except.ok (s, Option.none)
  | Option.some rs =>
    if rs.isEmpty then Except.ok (s, Option.none)
    else if (rs.contains "reflectance" || rs.contains "temperature") &&
        rs.contains "data" then
      match seen_required_roles with
      | Option.none => Except.error PyErr.attributeError
      | Option.some sl =>
          Except.ok (validate_data_asset asset s, Option.some (sl ++ ["data"]))
    else if rs.contains "metadata" then
      if rs.contains "date" then
        Except.ok (validate_date_asset asset s, seen_required_roles)
      else if rs.contains "incomplete-testing" then
        match seen_required_roles with
        | Option.none => Except.error PyErr.attributeError
        | Option.some sl =>
            Except.ok (validate_incomplete_testing_asset asset s,
              Option.some (sl ++ ["incomplete-testing"]))
      else if rs.contains "saturation" then
        match seen_required_roles with
        | Option.none => Except.error PyErr.attributeError
        | Option.some sl =>
            Except.ok (validate_saturation_asset asset s,
              Option.some (sl ++ ["saturation"]))
      else if rs.contains "cloud" then
        match seen_required_roles with
        | Option.none => Except.error PyErr.attributeError
        | Option.some sl =>
            Except.ok (validate_cloud_asset asset s,
              Option.some (sl ++ ["cloud"]))
      else if rs.contains "cloud-shadow" then
        match seen_required_roles with
        | Option.none => Except.error PyErr.attributeError
        | Option.some sl =>
            Except.ok (validate_cloud_shadow_asset asset s,
              Option.some (sl ++ ["cloud-shadow"]))
      else if rs.contains "snow-ice" then
        Except.ok (validate_snow_ice_asset asset s, seen_required_roles)
      else if rs.contains "land-water" then
        Except.ok (validate_land_water_asset asset s, seen_required_roles)
      else if rs.contains "incidence-angle" then
        Except.ok (validate_incidence_angle_asset asset s, seen_required_roles)
      else if rs.contains "azimuth" then
        Except.ok (validate_azimuth_asset asset s, seen_required_roles)
      else if rs.contains "sun-azimuth" then
        Except.ok (validate_sun_azimuth_asset asset s, seen_required_roles)
      else if rs.contains "sun-elevation" then
        Except.ok (validate_sun_elevation_asset asset s, seen_required_roles)
      else if rs.contains "terrain-shadow" then
        Except.ok (validate_terrain_shadow_asset asset s, seen_required_roles)
      else if rs.contains "terrain-occlusion" then
        Except.ok (validate_terrain_occlusion_asset asset s, seen_required_roles)
      else if rs.contains "terrain-illumination" then
        Except.ok (validate_terrain_illumination_asset asset s,
          seen_required_roles)
      else Except.ok (s, seen_required_roles)
    else Except.ok (s, seen_required_roles)

/-- The `for asset in self.item.assets.values()` loop of
`Validator.validate_assets`, threading the accumulator returned by each
`validate_asset` call. -/
def validate_assets_loop (s : VState) (seen : Option (List String)) :
    List (String × Asset) → Except PyErr (VState × Option (List String))
  | [] => Except.ok (s, seen)
  | a :: rest =>
    match validate_asset s a.2 seen with
    | Except.error e => Except.error e
    | Except.ok (s1, seen1) => validate_assets_loop s1 seen1 rest

/-- The nested `check_required_metadata_role` of `Validator.validate_assets`. -/
def check_required_metadata_role (role : String) (seen : List String)
    (s : VState) : VState :=
  if role ∈ seen then s
  else
    addResult ("assets[role=" ++ role ++ "]")
      (mkError ("missing asset with roles: " ++ role ++ ", metadata")) s

/-- `Validator.validate_assets`. After the loop, `"data" not in
seen_required_roles` raises `TypeError` when the accumulator has become
`None`. -/
def validate_assets (s : VState) : Except PyErr VState :=
  match validate_assets_loop s (Option.some []) s.item.assets with
  | Except.error e => Except.error e
  | Except.ok (s1, seenOpt) =>
    match seenOpt with
    | Option.none => Except.error PyErr.typeError
    | Option.some seen =>
      let s2 := if "data" ∈ seen then s1
        else
          addResult "assets[role=data]"
            (mkError "missing asset with roles: (reflectance or temperature), data")
            s1
      let s3 := check_required_metadata_role "incomplete-testing" seen s2
      let s4 := check_required_metadata_role "saturation" seen s3
      let s5 := check_required_metadata_role "cloud" seen s4
      Except.ok (check_required_metadata_role "cloud-shadow" seen s5)

/-- The `if not self.item.datetime` statement of `validate_item_properties`
(named here so the sequencing lemmas can refer to it). -/
def check_datetime (s : VState) : VState :=
  if s.item.datetime then s
  else addResult "datetime" (mkError "datetime cannot be null") s

/-- The `if not self.item.common_metadata.instruments` statement of
`validate_item_properties` (pystac reads `properties["instruments"]`). -/
def check_instruments (s : VState) : VState :=
  if truthy (s.item.property "instruments") then s
  else addResult "instruments" (mkError "instruments are required") s

/-- The `proj:epsg` / `proj:wkt2` / `proj:projjson` either-or statement of
`validate_item_properties`. -/
def check_proj (s : VState) : VState :=
  if !truthy (s.item.property "proj:epsg") &&
      !(truthy (s.item.property "proj:wkt2") ||
        truthy (s.item.property "proj:projjson")) then
    addResult "proj"
      (mkError "proj:wkt2 or proj:projjson is required if proj:epsg is null") s
  else s

/-- `Validator.validate_item_properties`: the statements of the source in order,
with the three inline statements as the named steps above. -/
def validate_item_properties (s : VState) : Except PyErr VState :=
  match check_property_is_geometric_accuracy
      "card4l:northern_geometric_accuacy"
      (check_property_equal "card4l:specification_version"
        SPECIFICATION_VERSION
        (check_property_in "card4l:specification" SPECIFICATIONS s)) with
  | Except.error e => Except.error e
  | Except.ok s3 =>
    match check_property_is_geometric_accuracy
        "card4l:eastern_geometric_accuacy" s3 with
    | Except.error e => Except.error e
    | Except.ok s4 =>
      match check_lowercase "constellation"
          (check_instruments (check_datetime s4)) with
      | Except.error e => Except.error e
      | Except.ok s7 =>
        Except.ok (check_required_property "view:sun_elevation"
          (check_required_property "view:sun_azimuth"
            (check_required_property "view:azimuth"
              (check_required_property "view:off_nadir" (check_proj s7)))))

/-- `Validator.validate`: the five phases in source order, on the
state of the validator. -/
def Validator.run (schemaOk : String → Bool) (s : VState) :
    Except PyErr VState :=
  match validate_item_properties
      (validate_stac_items (validate_extensions schemaOk s)) with
  | Except.error e => Except.error e
  | Except.ok s1 => validate_assets (validate_links s1)

/-- `Validator(item).validate()`: fresh results, returning the aggregated
result set. -/
def Validator.validate (schemaOk : String → Bool) (item : Item) :
    Except PyErr (List (String × Result)) :=
  match Validator.run schemaOk { item := item, results := [] } with
  | Except.error e => Except.error e
  | Except.ok s => Except.ok s.results

/-- What `pystac.read_file` can hand back for an href: a single Item, or
some other STAC object (collection, catalog, ...). -/
inductive STACObject where
  | item (i : Item) : STACObject
  | other : STACObject
deriving Repr

/-- The module-level `validate(href, recurse)` entry point. The external
`pystac.read_file(href)` is modelled by passing its result (`read`)
directly; the `recurse` guard runs before the file is read. -/
def validateTop (schemaOk : String → Bool) (read : STACObject)
    (recurse : Bool) : Except PyErr (List (String × Result)) :=
  if recurse then Except.error PyErr.notImplementedError
  else
    match read with
    | STACObject.item i => Validator.validate schemaOk i
    | STACObject.other => Except.error PyErr.notImplementedError

/-- The ordered list of diagnostics under one path key (what the
`defaultdict` maps the key to). -/
def resultsFor (key : String) (rs : List (String × Result)) : List Result :=
  (rs.filter (fun e => e.1 == key)).map (fun e => e.2)

/-! ## Contribution functions

Each checker only appends to the results; under a non-throwing run its
appended segment is a function of the item alone. The `*Contrib` functions
below compute those segments, and the lemmas that follow prove the checkers
equal to `results ++ contribution`. -/

/-- Segment appended by `check_property_in`. -/
def propertyInContrib (item : Item) (name : String) (values : List PyValue) :
    List (String × Result) :=
  if item.property name ∈ values then []
  else
    [(name, mkError (name ++ " is not an expected value: value=" ++
      pyStr (item.property name) ++ ", expected=[" ++
      String.intercalate ", " (values.map pyReprV) ++ "]"))]

/-- Segment appended by `check_property_equal`. -/
def propertyEqualContrib (item : Item) (name : String) (expected : PyValue) :
    List (String × Result) :=
  if item.property name = expected then []
  else
    [(name, mkError (name ++ " is not the expected value: value=" ++
      pyStr (item.property name) ++ ", expected=" ++ pyStr expected))]

/-- Segment appended by a non-throwing `check_member_is_number`. -/
def memberContrib (item : Item) (p n : String) : List (String × Result) :=
  if truthy (item.property p) then
    match pyGet (item.property p) n with
    | Except.ok value =>
      match pyFloat value with
      | FloatConv.valueError =>
          [(p ++ "." ++ n, mkError ("value is not a number: " ++ pyStrP value))]
      | _ => []
    | Except.error _ => []
  else
    [(p, mkError ("expected property is missing: " ++ p ++ "." ++ n))]

/-- Segment appended by a non-throwing `check_lowercase`. -/
def lowercaseContrib (item : Item) (name : String) : List (String × Result) :=
  match item.property name with
  | PyValue.prim (PyPrim.str sv) =>
    if !sv.isEmpty && sv.toList.any Char.isUpper then
      [(name, mkError (name ++ " must be lowercase: " ++ sv))]
    else []
  | _ => []

/-- Segment appended by `check_required_property`. -/
def requiredPropertyContrib (item : Item) (name : String) :
    List (String × Result) :=
  if truthy (item.property name) then []
  else [(name, mkError ("missing required property: " ++ name))]

/-- Segment appended by `check_link`. -/
def checkLinkContrib (item : Item) (rel : String) (media_types : List String)
    (result_type : Severity) : List (String × Result) :=
  match get_single_link item rel with
  | Option.none =>
      [("links[rel=" ++ rel ++ "]",
        { severity := result_type, message := "missing link" })]
  | Option.some link =>
    if mediaTypeMismatch media_types link then
      [("links[rel=" ++ rel ++ "]",
        { severity := result_type,
          message := "invalid media type: actual=" ++ optStr link.mediaType ++
            ", expected=" ++ strListRepr media_types })]
    else []

/-- Segment appended by `validate_algorithms`. -/
def algorithmsContrib (item : Item) : List (String × Result) :=
  if !truthy (item.property "processing:software") &&
      (get_single_link item "about").isNone then
    [("about",
      mkError ("item must have either property `processing:software` or a " ++
        "link with with a relation type `about`"))]
  else []

/-- Segment appended by `validate_extensions`. -/
def extensionsContrib (schemaOk : String → Bool) (item : Item) :
    List (String × Result) :=
  (REQUIRED_EXTENSIONS.filterMap (validate_extension schemaOk item)).map
    (fun r => ("extension", r))

/-- Segment appended by `validate_stac_items`. -/
def stacItemsContrib (item : Item) : List (String × Result) :=
  (if truthy item.geometry then []
   else [("geometry", mkError "geometry cannot be null")]) ++
  (if truthy item.bbox then [] else [("bbox", mkError "bbox cannot be null")])

/-- `is_st` as a function of the item. -/
def itemIsST (item : Item) : Bool :=
  decide (item.property "card4l:specification" = PyValue.s "ST")

/-- `is_sr` as a function of the item. -/
def itemIsSR (item : Item) : Bool :=
  decide (item.property "card4l:specification" = PyValue.s "SR")

/-- Segment appended by `validate_links`. -/
def linksContrib (item : Item) : List (String × Result) :=
  checkLinkContrib item "card4l-document"
    [ "application/vnd.openxmlformats-officedocument.wordprocessingml.document",
      "application/pdf" ] Severity.error ++
  algorithmsContrib item ++
  checkLinkContrib item "access" [] Severity.warning ++
  (if itemIsST item then
    checkLinkContrib item "atmosphere-emissivity" [] Severity.error
   else if itemIsSR item then
    checkLinkContrib item "measurement-normalization" [] Severity.error ++
    checkLinkContrib item "atmospheric-scattering" [] Severity.error ++
    checkLinkContrib item "water-vapor" [] Severity.error ++
    checkLinkContrib item "ozone" [] Severity.error
   else [])

/-- Segment appended by a non-throwing `validate_item_properties`. -/
def itemPropertiesContrib (item : Item) : List (String × Result) :=
  propertyInContrib item "card4l:specification" SPECIFICATIONS ++
  propertyEqualContrib item "card4l:specification_version"
    SPECIFICATION_VERSION ++
  memberContrib item "card4l:northern_geometric_accuacy" "bias" ++
  memberContrib item "card4l:northern_geometric_accuacy" "stddev" ++
  memberContrib item "card4l:eastern_geometric_accuacy" "bias" ++
  memberContrib item "card4l:eastern_geometric_accuacy" "stddev" ++
  (if item.datetime then []
   else [("datetime", mkError "datetime cannot be null")]) ++
  (if truthy (item.property "instruments") then []
   else [("instruments", mkError "instruments are required")]) ++
  lowercaseContrib item "constellation" ++
  (if !truthy (item.property "proj:epsg") &&
      !(truthy (item.property "proj:wkt2") ||
        truthy (item.property "proj:projjson")) then
    [("proj", mkError "proj:wkt2 or proj:projjson is required if proj:epsg is null")]
   else []) ++
  requiredPropertyContrib item "view:off_nadir" ++
  requiredPropertyContrib item "view:azimuth" ++
  requiredPropertyContrib item "view:sun_azimuth" ++
  requiredPropertyContrib item "view:sun_elevation"

/-- Segment appended by the tail of `validate_assets`, given the observed
required roles. -/
def assetsContrib (seen : List String) : List (String × Result) :=
  (if "data" ∈ seen then []
   else
    [("assets[role=data]",
      mkError "missing asset with roles: (reflectance or temperature), data")]) ++
  (if "incomplete-testing" ∈ seen then []
   else
    [("assets[role=incomplete-testing]",
      mkError "missing asset with roles: incomplete-testing, metadata")]) ++
  (if "saturation" ∈ seen then []
   else
    [("assets[role=saturation]",
      mkError "missing asset with roles: saturation, metadata")]) ++
  (if "cloud" ∈ seen then []
   else
    [("assets[role=cloud]",
      mkError "missing asset with roles: cloud, metadata")]) ++
  (if "cloud-shadow" ∈ seen then []
   else
    [("assets[role=cloud-shadow]",
      mkError "missing asset with roles: cloud-shadow, metadata")])

/-! ## Per-checker lemmas: each checker appends exactly its contribution. -/

lemma addResult_results (name : String) (r : Result) (s : VState) :
    (addResult name r s).results = s.results ++ [(name, r)] := rfl

lemma check_property_in_spec (name : String) (values : List PyValue)
    (s : VState) :
    (check_property_in name values s).item = s.item ∧
    (check_property_in name values s).results =
      s.results ++ propertyInContrib s.item name values := by
  by_cases h : s.item.property name ∈ values <;>
    simp [check_property_in, propertyInContrib, addResult, h]

lemma check_property_equal_spec (name : String) (expected : PyValue)
    (s : VState) :
    (check_property_equal name expected s).item = s.item ∧
    (check_property_equal name expected s).results =
      s.results ++ propertyEqualContrib s.item name expected := by
  by_cases h : s.item.property name = expected <;>
    simp [check_property_equal, propertyEqualContrib, addResult, h]

lemma check_member_is_number_spec (p n : String) (s s' : VState)
    (h : check_member_is_number p n s = Except.ok s') :
    s'.item = s.item ∧ s'.results = s.results ++ memberContrib s.item p n := by
  unfold check_member_is_number at h
  unfold memberContrib
  dsimp only at h
  repeat' split at h
  all_goals try (injection h with h)
  all_goals try subst h
  all_goals try split
  all_goals simp_all [addResult]

lemma check_property_is_geometric_accuracy_spec (name : String) (s s' : VState)
    (h : check_property_is_geometric_accuracy name s = Except.ok s') :
    s'.item = s.item ∧
    s'.results = s.results ++ memberContrib s.item name "bias" ++
      memberContrib s.item name "stddev" := by
  unfold check_property_is_geometric_accuracy at h
  cases h1 : check_member_is_number name "bias" s with
  | error e => rw [h1] at h; cases h
  | ok s1 =>
    rw [h1] at h
    obtain ⟨hi1, hr1⟩ := check_member_is_number_spec name "bias" s s1 h1
    obtain ⟨hi2, hr2⟩ := check_member_is_number_spec name "stddev" s1 s' h
    refine ⟨by rw [hi2, hi1], ?_⟩
    rw [hr2, hr1, hi1]

lemma check_lowercase_spec (name : String) (s s' : VState)
    (h : check_lowercase name s = Except.ok s') :
    s'.item = s.item ∧
    s'.results = s.results ++ lowercaseContrib s.item name := by
  unfold check_lowercase at h
  unfold lowercaseContrib
  dsimp only at h
  repeat' split at h
  all_goals try (injection h with h)
  all_goals try subst h
  all_goals try simp_all [addResult, truthy, truthyP]
  all_goals try split
  all_goals simp_all [addResult, truthy, truthyP]

lemma check_required_property_spec (name : String) (s : VState) :
    (check_required_property name s).item = s.item ∧
    (check_required_property name s).results =
      s.results ++ requiredPropertyContrib s.item name := by
  by_cases h : truthy (s.item.property name) <;>
    simp [check_required_property, requiredPropertyContrib, addResult, h]

lemma check_link_spec (rel : String) (media_types : List String)
    (result_type : Severity) (s : VState) :
    (check_link rel media_types result_type s).item = s.item ∧
    (check_link rel media_types result_type s).results =
      s.results ++ checkLinkContrib s.item rel media_types result_type := by
  unfold check_link checkLinkContrib
  cases hl : get_single_link s.item rel with
  | none => simp [hl, addResult]
  | some link =>
    by_cases hm : mediaTypeMismatch media_types link <;>
      simp [hl, hm, addResult]

lemma validate_algorithms_spec (s : VState) :
    (validate_algorithms s).item = s.item ∧
    (validate_algorithms s).results = s.results ++ algorithmsContrib s.item := by
  by_cases h : (!truthy (s.item.property "processing:software") &&
      (get_single_link s.item "about").isNone) = true <;>
    simp [validate_algorithms, algorithmsContrib, addResult, h]

lemma validate_stac_items_spec (s : VState) :
    (validate_stac_items s).item = s.item ∧
    (validate_stac_items s).results = s.results ++ stacItemsContrib s.item := by
  by_cases h1 : truthy s.item.geometry <;>
    by_cases h2 : truthy s.item.bbox <;>
      simp [validate_stac_items, stacItemsContrib, addResult, h1, h2]

lemma check_datetime_spec (s : VState) :
    (check_datetime s).item = s.item ∧
    (check_datetime s).results = s.results ++
      (if s.item.datetime then []
       else [("datetime", mkError "datetime cannot be null")]) := by
  by_cases h : s.item.datetime <;> simp [check_datetime, addResult, h]

lemma check_instruments_spec (s : VState) :
    (check_instruments s).item = s.item ∧
    (check_instruments s).results = s.results ++
      (if truthy (s.item.property "instruments") then []
       else [("instruments", mkError "instruments are required")]) := by
  by_cases h : truthy (s.item.property "instruments") <;>
    simp [check_instruments, addResult, h]

lemma check_proj_spec (s : VState) :
    (check_proj s).item = s.item ∧
    (check_proj s).results = s.results ++
      (if !truthy (s.item.property "proj:epsg") &&
          !(truthy (s.item.property "proj:wkt2") ||
            truthy (s.item.property "proj:projjson")) then
        [("proj", mkError "proj:wkt2 or proj:projjson is required if proj:epsg is null")]
       else []) := by
  unfold check_proj
  by_cases h : (!truthy (s.item.property "proj:epsg") &&
      !(truthy (s.item.property "proj:wkt2") ||
        truthy (s.item.property "proj:projjson"))) = true
  · rw [if_pos h, if_pos h]; simp [addResult]
  · rw [if_neg h, if_neg h]; simp

lemma validate_extensions_go (schemaOk : String → Bool) (es : List String)
    (s : VState) :
    (es.foldl (validate_extensions_step schemaOk) s).item = s.item ∧
    (es.foldl (validate_extensions_step schemaOk) s).results =
      s.results ++ (es.filterMap (validate_extension schemaOk s.item)).map
        (fun r => ("extension", r)) := by
  induction es generalizing s with
  | nil => simp
  | cons e rest ih =>
    simp only [List.foldl_cons, List.filterMap_cons]
    cases hr : validate_extension schemaOk s.item e with
    | none =>
      have hstep : validate_extensions_step schemaOk s e = s := by
        simp [validate_extensions_step, hr]
      rw [hstep]
      simpa using ih s
    | some r =>
      have hstep : validate_extensions_step schemaOk s e =
          addResult "extension" r s := by
        simp [validate_extensions_step, hr]
      rw [hstep]
      obtain ⟨hi, hres⟩ := ih (addResult "extension" r s)
      constructor
      · rw [hi]; rfl
      · rw [hres]
        simp [addResult]

lemma validate_extensions_spec (schemaOk : String → Bool) (s : VState) :
    (validate_extensions schemaOk s).item = s.item ∧
    (validate_extensions schemaOk s).results =
      s.results ++ extensionsContrib schemaOk s.item := by
  unfold validate_extensions extensionsContrib
  exact validate_extensions_go schemaOk REQUIRED_EXTENSIONS s

lemma validate_item_properties_spec (s s' : VState)
    (h : validate_item_properties s = Except.ok s') :
    s'.item = s.item ∧
    s'.results = s.results ++ itemPropertiesContrib s.item := by
  unfold validate_item_properties at h
  obtain ⟨hi1, hr1⟩ := check_property_in_spec "card4l:specification"
    SPECIFICATIONS s
  obtain ⟨hi2, hr2⟩ := check_property_equal_spec "card4l:specification_version"
    SPECIFICATION_VERSION (check_property_in "card4l:specification"
      SPECIFICATIONS s)
  cases h3 : check_property_is_geometric_accuracy
      "card4l:northern_geometric_accuacy"
      (check_property_equal "card4l:specification_version"
        SPECIFICATION_VERSION
        (check_property_in "card4l:specification" SPECIFICATIONS s)) with
  | error e => rw [h3] at h; exact Except.noConfusion h
  | ok s3 =>
    rw [h3] at h
    dsimp only at h
    obtain ⟨hi3, hr3⟩ := check_property_is_geometric_accuracy_spec
      "card4l:northern_geometric_accuacy" _ s3 h3
    cases h4 : check_property_is_geometric_accuracy
        "card4l:eastern_geometric_accuacy" s3 with
    | error e => rw [h4] at h; exact Except.noConfusion h
    | ok s4 =>
      rw [h4] at h
      dsimp only at h
      obtain ⟨hi4, hr4⟩ := check_property_is_geometric_accuracy_spec
        "card4l:eastern_geometric_accuacy" s3 s4 h4
      obtain ⟨hi5, hr5⟩ := check_datetime_spec s4
      obtain ⟨hi6, hr6⟩ := check_instruments_spec (check_datetime s4)
      cases h7 : check_lowercase "constellation"
          (check_instruments (check_datetime s4)) with
      | error e => rw [h7] at h; exact Except.noConfusion h
      | ok s7 =>
        rw [h7] at h
        dsimp only at h
        injection h with h
        subst h
        obtain ⟨hi7, hr7⟩ := check_lowercase_spec "constellation" _ s7 h7
        obtain ⟨hi8, hr8⟩ := check_proj_spec s7
        obtain ⟨hi9, hr9⟩ := check_required_property_spec "view:off_nadir"
          (check_proj s7)
        obtain ⟨hi10, hr10⟩ := check_required_property_spec "view:azimuth"
          (check_required_property "view:off_nadir" (check_proj s7))
        obtain ⟨hi11, hr11⟩ := check_required_property_spec "view:sun_azimuth"
          (check_required_property "view:azimuth"
            (check_required_property "view:off_nadir" (check_proj s7)))
        obtain ⟨hi12, hr12⟩ := check_required_property_spec
          "view:sun_elevation"
          (check_required_property "view:sun_azimuth"
            (check_required_property "view:azimuth"
              (check_required_property "view:off_nadir" (check_proj s7))))
        have hitem3 : s3.item = s.item := by rw [hi3, hi2, hi1]
        have hitem4 : s4.item = s.item := by rw [hi4, hitem3]
        have hitem6 : (check_instruments (check_datetime s4)).item = s.item :=
          by rw [hi6, hi5, hitem4]
        have hitem7 : s7.item = s.item := by rw [hi7, hitem6]
        constructor
        · simp only [hi12, hi11, hi10, hi9, hi8, hi7, hi6, hi5, hi4, hi3,
            hi2, hi1]
        · rw [hr12, hr11, hr10, hr9, hr8, hr7, hr6, hr5, hr4, hr3, hr2, hr1]
          simp only [hi12, hi11, hi10, hi9, hi8, hi7, hi6, hi5, hi4, hi3,
            hi2, hi1]
          unfold itemPropertiesContrib
          simp [List.append_assoc]

lemma validate_links_spec (s : VState) :
    (validate_links s).item = s.item ∧
    (validate_links s).results = s.results ++ linksContrib s.item := by
  unfold validate_links linksContrib
  dsimp only
  obtain ⟨hiA, hrA⟩ := check_link_spec "card4l-document"
    [ "application/vnd.openxmlformats-officedocument.wordprocessingml.document",
      "application/pdf" ] Severity.error s
  obtain ⟨hiB, hrB⟩ := validate_algorithms_spec
    (check_link "card4l-document"
      [ "application/vnd.openxmlformats-officedocument.wordprocessingml.document",
        "application/pdf" ] Severity.error s)
  obtain ⟨hiC, hrC⟩ := check_link_spec "access" [] Severity.warning
    (validate_algorithms (check_link "card4l-document"
      [ "application/vnd.openxmlformats-officedocument.wordprocessingml.document",
        "application/pdf" ] Severity.error s))
  have hitem3 : (check_link "access" [] Severity.warning
      (validate_algorithms (check_link "card4l-document"
        [ "application/vnd.openxmlformats-officedocument.wordprocessingml.document",
          "application/pdf" ] Severity.error s))).item = s.item := by
    rw [hiC, hiB, hiA]
  have hst : is_st (check_link "access" [] Severity.warning
      (validate_algorithms (check_link "card4l-document"
        [ "application/vnd.openxmlformats-officedocument.wordprocessingml.document",
          "application/pdf" ] Severity.error s))) = itemIsST s.item := by
    unfold is_st itemIsST
    rw [hitem3]
  have hsr : is_sr (check_link "access" [] Severity.warning
      (validate_algorithms (check_link "card4l-document"
        [ "application/vnd.openxmlformats-officedocument.wordprocessingml.document",
          "application/pdf" ] Severity.error s))) = itemIsSR s.item := by
    unfold is_sr itemIsSR
    rw [hitem3]
  rw [hst, hsr]
  by_cases hST : itemIsST s.item
  · rw [if_pos hST, if_pos hST]
    obtain ⟨hiD, hrD⟩ := check_link_spec "atmosphere-emissivity" []
      Severity.error (check_link "access" [] Severity.warning
        (validate_algorithms (check_link "card4l-document"
          [ "application/vnd.openxmlformats-officedocument.wordprocessingml.document",
            "application/pdf" ] Severity.error s)))
    constructor
    · rw [hiD, hitem3]
    · rw [hrD, hrC, hrB, hrA]
      simp only [hiC, hiB, hiA]
      simp [List.append_assoc]
  · rw [if_neg hST, if_neg hST]
    by_cases hSR : itemIsSR s.item
    · rw [if_pos hSR, if_pos hSR]
      obtain ⟨hiD, hrD⟩ := check_link_spec "measurement-normalization" []
        Severity.error (check_link "access" [] Severity.warning
          (validate_algorithms (check_link "card4l-document"
            [ "application/vnd.openxmlformats-officedocument.wordprocessingml.document",
              "application/pdf" ] Severity.error s)))
      obtain ⟨hiE, hrE⟩ := check_link_spec "atmospheric-scattering" []
        Severity.error (check_link "measurement-normalization" [] Severity.error
          (check_link "access" [] Severity.warning
            (validate_algorithms (check_link "card4l-document"
              [ "application/vnd.openxmlformats-officedocument.wordprocessingml.document",
                "application/pdf" ] Severity.error s))))
      obtain ⟨hiF, hrF⟩ := check_link_spec "water-vapor" []
        Severity.error (check_link "atmospheric-scattering" [] Severity.error
          (check_link "measurement-normalization" [] Severity.error
            (check_link "access" [] Severity.warning
              (validate_algorithms (check_link "card4l-document"
                [ "application/vnd.openxmlformats-officedocument.wordprocessingml.document",
                  "application/pdf" ] Severity.error s)))))
      obtain ⟨hiG, hrG⟩ := check_link_spec "ozone" []
        Severity.error (check_link "water-vapor" [] Severity.error
          (check_link "atmospheric-scattering" [] Severity.error
            (check_link "measurement-normalization" [] Severity.error
              (check_link "access" [] Severity.warning
                (validate_algorithms (check_link "card4l-document"
                  [ "application/vnd.openxmlformats-officedocument.wordprocessingml.document",
                    "application/pdf" ] Severity.error s))))))
      constructor
      · simp only [hiG, hiF, hiE, hiD, hiC, hiB, hiA]
      · rw [hrG, hrF, hrE, hrD, hrC, hrB, hrA]
        simp only [hiG, hiF, hiE, hiD, hiC, hiB, hiA]
        simp [List.append_assoc]
    · rw [if_neg hSR, if_neg hSR]
      constructor
      · rw [hitem3]
      · rw [hrC, hrB, hrA]
        simp only [hiB, hiA]
        simp [List.append_assoc]

lemma validate_asset_state (s : VState) (a : Asset)
    (seen : Option (List String)) (s' : VState)
    (seen' : Option (List String))
    (h : validate_asset s a seen = Except.ok (s', seen')) : s' = s := by
  unfold validate_asset at h
  repeat' split at h
  all_goals try (injection h with h)
  all_goals try simp_all [validate_data_asset, validate_date_asset,
    validate_incomplete_testing_asset, validate_saturation_asset,
    validate_cloud_asset, validate_cloud_shadow_asset,
    validate_snow_ice_asset, validate_land_water_asset,
    validate_incidence_angle_asset, validate_azimuth_asset,
    validate_sun_azimuth_asset, validate_sun_elevation_asset,
    validate_terrain_shadow_asset, validate_terrain_occlusion_asset,
    validate_terrain_illumination_asset]
  all_goals repeat' split at h
  all_goals try (injection h with h)
  all_goals simp_all

lemma validate_assets_loop_state (l : List (String × Asset)) (s : VState)
    (seen : Option (List String)) (s' : VState)
    (seen' : Option (List String))
    (h : validate_assets_loop s seen l = Except.ok (s', seen')) : s' = s := by
  induction l generalizing s seen with
  | nil =>
    unfold validate_assets_loop at h
    injection h with h
    exact congrArg Prod.fst h.symm
  | cons a rest ih =>
    unfold validate_assets_loop at h
    cases ha : validate_asset s a.2 seen with
    | error e => rw [ha] at h; exact Except.noConfusion h
    | ok p =>
      obtain ⟨s1, seen1⟩ := p
      rw [ha] at h
      dsimp only at h
      have h1 : s1 = s := validate_asset_state s a.2 seen s1 seen1 ha
      have h2 : s' = s1 := ih s1 seen1 h
      rw [h2, h1]

lemma validate_assets_spec (s s' : VState)
    (h : validate_assets s = Except.ok s') :
    s'.item = s.item ∧ ∃ seen : List String,
      s'.results = s.results ++ assetsContrib seen := by
  unfold validate_assets at h
  cases hl : validate_assets_loop s (Option.some []) s.item.assets with
  | error e => rw [hl] at h; exact Except.noConfusion h
  | ok p =>
    obtain ⟨s1, seenOpt⟩ := p
    rw [hl] at h
    dsimp only at h
    have hs1 : s1 = s := validate_assets_loop_state _ _ _ _ _ hl
    cases seenOpt with
    | none => exact Except.noConfusion h
    | some seen =>
      dsimp only at h
      injection h with h
      subst h
      subst hs1
      refine ⟨?_, seen, ?_⟩
      · unfold check_required_metadata_role addResult
        repeat' split
        all_goals rfl
      · unfold assetsContrib check_required_metadata_role addResult
        repeat' split
        all_goals simp

lemma Validator.run_spec (schemaOk : String → Bool) (s s' : VState)
    (h : Validator.run schemaOk s = Except.ok s') :
    s'.item = s.item ∧ ∃ seen : List String,
      s'.results = s.results ++ extensionsContrib schemaOk s.item ++
        stacItemsContrib s.item ++ itemPropertiesContrib s.item ++
        linksContrib s.item ++ assetsContrib seen := by
  unfold Validator.run at h
  cases hp : validate_item_properties
      (validate_stac_items (validate_extensions schemaOk s)) with
  | error e => rw [hp] at h; exact Except.noConfusion h
  | ok s1 =>
    rw [hp] at h
    dsimp only at h
    obtain ⟨hiE, hrE⟩ := validate_extensions_spec schemaOk s
    obtain ⟨hiS, hrS⟩ := validate_stac_items_spec
      (validate_extensions schemaOk s)
    obtain ⟨hiP, hrP⟩ := validate_item_properties_spec _ s1 hp
    obtain ⟨hiL, hrL⟩ := validate_links_spec s1
    obtain ⟨hiA, ⟨seen, hrA⟩⟩ := validate_assets_spec (validate_links s1) s' h
    have hitem1 : s1.item = s.item := by rw [hiP, hiS, hiE]
    constructor
    · rw [hiA, hiL, hitem1]
    · refine ⟨seen, ?_⟩
      rw [hrA, hrL, hrP, hrS, hrE]
      simp only [hiS, hiE, hiP, hitem1]

lemma Validator.validate_spec (schemaOk : String → Bool) (item : Item)
    (r : List (String × Result))
    (h : Validator.validate schemaOk item = Except.ok r) :
    ∃ seen : List String,
      r = extensionsContrib schemaOk item ++ stacItemsContrib item ++
        itemPropertiesContrib item ++ linksContrib item ++
        assetsContrib seen := by
  unfold Validator.validate at h
  cases hr : Validator.run schemaOk { item := item, results := [] } with
  | error e => rw [hr] at h; exact Except.noConfusion h
  | ok sEnd =>
    rw [hr] at h
    dsimp only at h
    injection h with h
    subst h
    obtain ⟨hi, ⟨seen, hres⟩⟩ := Validator.run_spec schemaOk _ sEnd hr
    refine ⟨seen, ?_⟩
    simpa using hres

/-! ## Reading one path key out of the contributions. -/

lemma resultsFor_append (key : String) (a b : List (String × Result)) :
    resultsFor key (a ++ b) = resultsFor key a ++ resultsFor key b := by
  simp [resultsFor]

lemma resultsFor_single_eq (key : String) (r : Result) :
    resultsFor key [(key, r)] = [r] := by
  simp [resultsFor]

lemma resultsFor_single_ne (key k : String) (r : Result) (h : k ≠ key) :
    resultsFor key [(k, r)] = [] := by
  simp [resultsFor, h]

lemma resultsFor_ite_empty_single (key k : String) (r : Result) (c : Prop)
    [Decidable c] (h : k ≠ key) :
    resultsFor key (if c then [] else [(k, r)]) = [] := by
  split
  · rfl
  · exact resultsFor_single_ne key k r h

lemma resultsFor_ite_single_empty (key k : String) (r : Result) (c : Prop)
    [Decidable c] (h : k ≠ key) :
    resultsFor key (if c then [(k, r)] else []) = [] := by
  split
  · exact resultsFor_single_ne key k r h
  · rfl

lemma resultsFor_propertyInContrib_ne (key name : String)
    (values : List PyValue) (item : Item) (h : name ≠ key) :
    resultsFor key (propertyInContrib item name values) = [] := by
  unfold propertyInContrib
  exact resultsFor_ite_empty_single key name _ _ h

lemma resultsFor_propertyEqualContrib_ne (key name : String)
    (expected : PyValue) (item : Item) (h : name ≠ key) :
    resultsFor key (propertyEqualContrib item name expected) = [] := by
  unfold propertyEqualContrib
  exact resultsFor_ite_empty_single key name _ _ h

lemma resultsFor_memberContrib_ne (key p n : String) (item : Item)
    (h1 : p ≠ key) (h2 : p ++ "." ++ n ≠ key) :
    resultsFor key (memberContrib item p n) = [] := by
  unfold memberContrib
  repeat' split
  all_goals simp [resultsFor, h1, h2]

lemma resultsFor_lowercaseContrib_ne (key name : String) (item : Item)
    (h : name ≠ key) :
    resultsFor key (lowercaseContrib item name) = [] := by
  unfold lowercaseContrib
  repeat' split
  all_goals simp [resultsFor, h]

lemma resultsFor_requiredPropertyContrib_ne (key name : String) (item : Item)
    (h : name ≠ key) :
    resultsFor key (requiredPropertyContrib item name) = [] := by
  unfold requiredPropertyContrib
  exact resultsFor_ite_empty_single key name _ _ h

lemma resultsFor_checkLinkContrib_ne (key rel : String)
    (media_types : List String) (result_type : Severity) (item : Item)
    (h : "links[rel=" ++ rel ++ "]" ≠ key) :
    resultsFor key (checkLinkContrib item rel media_types result_type) = [] := by
  unfold checkLinkContrib
  repeat' split
  all_goals simp [resultsFor, h]

lemma resultsFor_algorithmsContrib_ne (key : String) (item : Item)
    (h : "about" ≠ key) :
    resultsFor key (algorithmsContrib item) = [] := by
  unfold algorithmsContrib
  exact resultsFor_ite_single_empty key "about" _ _ h

lemma resultsFor_map_extension (key : String) (l : List Result)
    (h : "extension" ≠ key) :
    resultsFor key (l.map (fun r => ("extension", r))) = [] := by
  induction l with
  | nil => rfl
  | cons r rest _ih => simp [resultsFor, h]

lemma resultsFor_extensionsContrib_ne (key : String)
    (schemaOk : String → Bool) (item : Item) (h : "extension" ≠ key) :
    resultsFor key (extensionsContrib schemaOk item) = [] := by
  unfold extensionsContrib
  exact resultsFor_map_extension key _ h

lemma resultsFor_map_extension_self (l : List Result) :
    resultsFor "extension" (l.map (fun r => ("extension", r))) = l := by
  induction l with
  | nil => rfl
  | cons r rest ih => simpa [resultsFor] using ih

lemma resultsFor_extensionsContrib_self (schemaOk : String → Bool)
    (item : Item) :
    resultsFor "extension" (extensionsContrib schemaOk item) =
      REQUIRED_EXTENSIONS.filterMap (validate_extension schemaOk item) := by
  unfold extensionsContrib
  exact resultsFor_map_extension_self _

lemma resultsFor_stacItemsContrib_ne (key : String) (item : Item)
    (h1 : "geometry" ≠ key) (h2 : "bbox" ≠ key) :
    resultsFor key (stacItemsContrib item) = [] := by
  unfold stacItemsContrib
  rw [resultsFor_append,
    resultsFor_ite_empty_single key "geometry" _ _ h1,
    resultsFor_ite_empty_single key "bbox" _ _ h2]
  rfl

lemma resultsFor_assetsContrib_ne (key : String) (seen : List String)
    (h1 : "assets[role=data]" ≠ key)
    (h2 : "assets[role=incomplete-testing]" ≠ key)
    (h3 : "assets[role=saturation]" ≠ key)
    (h4 : "assets[role=cloud]" ≠ key)
    (h5 : "assets[role=cloud-shadow]" ≠ key) :
    resultsFor key (assetsContrib seen) = [] := by
  unfold assetsContrib
  rw [resultsFor_append, resultsFor_append, resultsFor_append,
    resultsFor_append,
    resultsFor_ite_empty_single key _ _ _ h1,
    resultsFor_ite_empty_single key _ _ _ h2,
    resultsFor_ite_empty_single key _ _ _ h3,
    resultsFor_ite_empty_single key _ _ _ h4,
    resultsFor_ite_empty_single key _ _ _ h5]
  rfl

lemma resultsFor_linksContrib_variantPart_ne (key : String) (item : Item)
    (h4 : "links[rel=" ++ "atmosphere-emissivity" ++ "]" ≠ key)
    (h5 : "links[rel=" ++ "measurement-normalization" ++ "]" ≠ key)
    (h6 : "links[rel=" ++ "atmospheric-scattering" ++ "]" ≠ key)
    (h7 : "links[rel=" ++ "water-vapor" ++ "]" ≠ key)
    (h8 : "links[rel=" ++ "ozone" ++ "]" ≠ key) :
    resultsFor key
      (if itemIsST item then
        checkLinkContrib item "atmosphere-emissivity" [] Severity.error
       else if itemIsSR item then
        checkLinkContrib item "measurement-normalization" [] Severity.error ++
        checkLinkContrib item "atmospheric-scattering" [] Severity.error ++
        checkLinkContrib item "water-vapor" [] Severity.error ++
        checkLinkContrib item "ozone" [] Severity.error
       else []) = [] := by
  by_cases hst : itemIsST item = true
  · rw [if_pos hst]
    exact resultsFor_checkLinkContrib_ne key _ _ _ item h4
  · rw [if_neg hst]
    by_cases hsr : itemIsSR item = true
    · rw [if_pos hsr]
      rw [resultsFor_append, resultsFor_append, resultsFor_append,
        resultsFor_checkLinkContrib_ne key _ _ _ item h5,
        resultsFor_checkLinkContrib_ne key _ _ _ item h6,
        resultsFor_checkLinkContrib_ne key _ _ _ item h7,
        resultsFor_checkLinkContrib_ne key _ _ _ item h8]
      rfl
    · rw [if_neg hsr]
      rfl

lemma resultsFor_linksContrib_ne (key : String) (item : Item)
    (h1 : "links[rel=" ++ "card4l-document" ++ "]" ≠ key)
    (h2 : "about" ≠ key)
    (h3 : "links[rel=" ++ "access" ++ "]" ≠ key)
    (h4 : "links[rel=" ++ "atmosphere-emissivity" ++ "]" ≠ key)
    (h5 : "links[rel=" ++ "measurement-normalization" ++ "]" ≠ key)
    (h6 : "links[rel=" ++ "atmospheric-scattering" ++ "]" ≠ key)
    (h7 : "links[rel=" ++ "water-vapor" ++ "]" ≠ key)
    (h8 : "links[rel=" ++ "ozone" ++ "]" ≠ key) :
    resultsFor key (linksContrib item) = [] := by
  unfold linksContrib
  rw [resultsFor_append, resultsFor_append, resultsFor_append,
    resultsFor_checkLinkContrib_ne key _ _ _ item h1,
    resultsFor_algorithmsContrib_ne key item h2,
    resultsFor_checkLinkContrib_ne key _ _ _ item h3,
    resultsFor_linksContrib_variantPart_ne key item h4 h5 h6 h7 h8]
  rfl

lemma resultsFor_linksContrib_one (key rel : String)
    (media_types : List String) (result_type : Severity) (item : Item)
    (hkey : "links[rel=" ++ rel ++ "]" = key)
    (hsplit : resultsFor key (linksContrib item) =
      resultsFor key (checkLinkContrib item rel media_types result_type))
    (hmiss : get_single_link item rel = Option.none) :
    resultsFor key (linksContrib item) =
      [{ severity := result_type, message := "missing link" }] := by
  rw [hsplit]
  unfold checkLinkContrib
  rw [hmiss]
  exact hkey ▸ resultsFor_single_eq _ _

lemma resultsFor_linksContrib_access (item : Item) :
    resultsFor ("links[rel=" ++ "access" ++ "]") (linksContrib item) =
      resultsFor ("links[rel=" ++ "access" ++ "]")
        (checkLinkContrib item "access" [] Severity.warning) := by
  unfold linksContrib
  rw [resultsFor_append, resultsFor_append, resultsFor_append,
    resultsFor_checkLinkContrib_ne _ _ _ _ item (by decide),
    resultsFor_algorithmsContrib_ne _ item (by decide),
    resultsFor_linksContrib_variantPart_ne _ item (by decide) (by decide)
      (by decide) (by decide) (by decide)]
  simp

lemma resultsFor_linksContrib_card4l_document (item : Item) :
    resultsFor ("links[rel=" ++ "card4l-document" ++ "]") (linksContrib item) =
      resultsFor ("links[rel=" ++ "card4l-document" ++ "]")
        (checkLinkContrib item "card4l-document"
          [ "application/vnd.openxmlformats-officedocument.wordprocessingml.document",
            "application/pdf" ] Severity.error) := by
  unfold linksContrib
  rw [resultsFor_append, resultsFor_append, resultsFor_append,
    resultsFor_algorithmsContrib_ne _ item (by decide),
    resultsFor_checkLinkContrib_ne _ "access" _ _ item (by decide),
    resultsFor_linksContrib_variantPart_ne _ item (by decide) (by decide)
      (by decide) (by decide) (by decide)]
  simp

lemma resultsFor_itemPropertiesContrib_ne (key : String) (item : Item)
    (h1 : "card4l:specification" ≠ key)
    (h2 : "card4l:specification_version" ≠ key)
    (h3 : "card4l:northern_geometric_accuacy" ≠ key)
    (h3b : "card4l:northern_geometric_accuacy" ++ "." ++ "bias" ≠ key)
    (h3c : "card4l:northern_geometric_accuacy" ++ "." ++ "stddev" ≠ key)
    (h4 : "card4l:eastern_geometric_accuacy" ≠ key)
    (h4b : "card4l:eastern_geometric_accuacy" ++ "." ++ "bias" ≠ key)
    (h4c : "card4l:eastern_geometric_accuacy" ++ "." ++ "stddev" ≠ key)
    (h5 : "datetime" ≠ key) (h6 : "instruments" ≠ key)
    (h7 : "constellation" ≠ key) (h8 : "proj" ≠ key)
    (h9 : "view:off_nadir" ≠ key) (h10 : "view:azimuth" ≠ key)
    (h11 : "view:sun_azimuth" ≠ key) (h12 : "view:sun_elevation" ≠ key) :
    resultsFor key (itemPropertiesContrib item) = [] := by
  unfold itemPropertiesContrib
  rw [resultsFor_append, resultsFor_append, resultsFor_append,
    resultsFor_append, resultsFor_append, resultsFor_append,
    resultsFor_append, resultsFor_append, resultsFor_append,
    resultsFor_append, resultsFor_append, resultsFor_append,
    resultsFor_append,
    resultsFor_propertyInContrib_ne key _ _ item h1,
    resultsFor_propertyEqualContrib_ne key _ _ item h2,
    resultsFor_memberContrib_ne key _ _ item h3 h3b,
    resultsFor_memberContrib_ne key _ _ item h3 h3c,
    resultsFor_memberContrib_ne key _ _ item h4 h4b,
    resultsFor_memberContrib_ne key _ _ item h4 h4c,
    resultsFor_ite_empty_single key "datetime" _ _ h5,
    resultsFor_ite_empty_single key "instruments" _ _ h6,
    resultsFor_lowercaseContrib_ne key _ item h7,
    resultsFor_ite_single_empty key "proj" _ _ h8,
    resultsFor_requiredPropertyContrib_ne key _ item h9,
    resultsFor_requiredPropertyContrib_ne key _ item h10,
    resultsFor_requiredPropertyContrib_ne key _ item h11,
    resultsFor_requiredPropertyContrib_ne key _ item h12]
  rfl

lemma resultsFor_itemPropertiesContrib_spec_key (item : Item) :
    resultsFor "card4l:specification" (itemPropertiesContrib item) =
      resultsFor "card4l:specification"
        (propertyInContrib item "card4l:specification" SPECIFICATIONS) := by
  unfold itemPropertiesContrib
  rw [resultsFor_append, resultsFor_append, resultsFor_append,
    resultsFor_append, resultsFor_append, resultsFor_append,
    resultsFor_append, resultsFor_append, resultsFor_append,
    resultsFor_append, resultsFor_append, resultsFor_append,
    resultsFor_append,
    resultsFor_propertyEqualContrib_ne _ _ _ item (by decide),
    resultsFor_memberContrib_ne _ _ "bias" item (by decide) (by decide),
    resultsFor_memberContrib_ne _ "card4l:northern_geometric_accuacy"
      "stddev" item (by decide) (by decide),
    resultsFor_memberContrib_ne _ _ "bias" item (by decide) (by decide),
    resultsFor_memberContrib_ne _ "card4l:eastern_geometric_accuacy"
      "stddev" item (by decide) (by decide),
    resultsFor_ite_empty_single _ "datetime" _ _ (by decide),
    resultsFor_ite_empty_single _ "instruments" _ _ (by decide),
    resultsFor_lowercaseContrib_ne _ _ item (by decide),
    resultsFor_ite_single_empty _ "proj" _ _ (by decide),
    resultsFor_requiredPropertyContrib_ne _ "view:off_nadir" item (by decide),
    resultsFor_requiredPropertyContrib_ne _ "view:azimuth" item (by decide),
    resultsFor_requiredPropertyContrib_ne _ "view:sun_azimuth" item (by decide),
    resultsFor_requiredPropertyContrib_ne _ "view:sun_elevation" item
      (by decide)]
  simp

lemma resultsFor_itemPropertiesContrib_north (item : Item) :
    resultsFor "card4l:northern_geometric_accuacy"
        (itemPropertiesContrib item) =
      resultsFor "card4l:northern_geometric_accuacy"
        (memberContrib item "card4l:northern_geometric_accuacy" "bias") ++
      resultsFor "card4l:northern_geometric_accuacy"
        (memberContrib item "card4l:northern_geometric_accuacy" "stddev") := by
  unfold itemPropertiesContrib
  rw [resultsFor_append, resultsFor_append, resultsFor_append,
    resultsFor_append, resultsFor_append, resultsFor_append,
    resultsFor_append, resultsFor_append, resultsFor_append,
    resultsFor_append, resultsFor_append, resultsFor_append,
    resultsFor_append,
    resultsFor_propertyInContrib_ne _ _ _ item (by decide),
    resultsFor_propertyEqualContrib_ne _ _ _ item (by decide),
    resultsFor_memberContrib_ne _ "card4l:eastern_geometric_accuacy"
      "bias" item (by decide) (by decide),
    resultsFor_memberContrib_ne _ "card4l:eastern_geometric_accuacy"
      "stddev" item (by decide) (by decide),
    resultsFor_ite_empty_single _ "datetime" _ _ (by decide),
    resultsFor_ite_empty_single _ "instruments" _ _ (by decide),
    resultsFor_lowercaseContrib_ne _ _ item (by decide),
    resultsFor_ite_single_empty _ "proj" _ _ (by decide),
    resultsFor_requiredPropertyContrib_ne _ "view:off_nadir" item (by decide),
    resultsFor_requiredPropertyContrib_ne _ "view:azimuth" item (by decide),
    resultsFor_requiredPropertyContrib_ne _ "view:sun_azimuth" item (by decide),
    resultsFor_requiredPropertyContrib_ne _ "view:sun_elevation" item
      (by decide)]
  simp

lemma resultsFor_itemPropertiesContrib_constellation (item : Item) :
    resultsFor "constellation" (itemPropertiesContrib item) =
      resultsFor "constellation" (lowercaseContrib item "constellation") := by
  unfold itemPropertiesContrib
  rw [resultsFor_append, resultsFor_append, resultsFor_append,
    resultsFor_append, resultsFor_append, resultsFor_append,
    resultsFor_append, resultsFor_append, resultsFor_append,
    resultsFor_append, resultsFor_append, resultsFor_append,
    resultsFor_append,
    resultsFor_propertyInContrib_ne _ _ _ item (by decide),
    resultsFor_propertyEqualContrib_ne _ _ _ item (by decide),
    resultsFor_memberContrib_ne _ "card4l:northern_geometric_accuacy"
      "bias" item (by decide) (by decide),
    resultsFor_memberContrib_ne _ "card4l:northern_geometric_accuacy"
      "stddev" item (by decide) (by decide),
    resultsFor_memberContrib_ne _ "card4l:eastern_geometric_accuacy"
      "bias" item (by decide) (by decide),
    resultsFor_memberContrib_ne _ "card4l:eastern_geometric_accuacy"
      "stddev" item (by decide) (by decide),
    resultsFor_ite_empty_single _ "datetime" _ _ (by decide),
    resultsFor_ite_empty_single _ "instruments" _ _ (by decide),
    resultsFor_ite_single_empty _ "proj" _ _ (by decide),
    resultsFor_requiredPropertyContrib_ne _ "view:off_nadir" item (by decide),
    resultsFor_requiredPropertyContrib_ne _ "view:azimuth" item (by decide),
    resultsFor_requiredPropertyContrib_ne _ "view:sun_azimuth" item (by decide),
    resultsFor_requiredPropertyContrib_ne _ "view:sun_elevation" item
      (by decide)]
  simp

/-! ## Claim theorems -/

/-- C7: the top-level validate entry point fails fast: if recursive
validation is requested, or the input does not resolve to a single Item,
it aborts with an unrecoverable error before producing any result set —
it never returns a result set in either case. -/
theorem c7_validate_fails_fast (schemaOk : String → Bool)
    (read : STACObject) (recurse : Bool)
    (h : recurse = true ∨ ∀ i : Item, read ≠ STACObject.item i) :
    ∃ e : PyErr, validateTop schemaOk read recurse = Except.error e := by
  unfold validateTop
  cases h with
  | inl hrec => rw [hrec]; exact ⟨PyErr.notImplementedError, rfl⟩
  | inr hni =>
    cases read with
    | item i => exact absurd rfl (hni i)
    | other => cases recurse <;> exact ⟨PyErr.notImplementedError, rfl⟩

/-- Witness for C7 at a concrete input: recursion requested on a
non-item input. -/
theorem c7_validate_fails_fast_witness :
    ∃ e : PyErr,
      validateTop (fun _ => true) STACObject.other true = Except.error e :=
  c7_validate_fails_fast (fun _ => true) STACObject.other true (Or.inl rfl)

/-- The C1 failing input: an asset with roles data+reflectance followed by
an asset with an empty role list. -/
def itemC1 : Item :=
  { assets := [("a1", { roles := Option.some ["data", "reflectance"] }),
               ("a2", { roles := Option.some [] })] }

/-- C1: contrary to the claim, skipping an asset with an empty role set
LOSES the accumulated categories: the bare return in validate_asset hands
None back to the loop, and the final data-category membership test then
raises TypeError, so this record does not validate cleanly at all. -/
theorem c1_empty_roles_asset_raises :
    Validator.validate (fun _ => true) itemC1 =
      Except.error PyErr.typeError := by
  rfl

/-- The C2 failing input: a geometric-accuracy object whose stddev
sub-field is absent, so float(None) is attempted. -/
def itemC2 : Item :=
  { properties := [("card4l:northern_geometric_accuacy",
      PyValue.dict [("bias", PyPrim.num 1)])] }

/-- C2: contrary to the claim, a geometric-accuracy sub-field that is
absent (None) does not yield a soft diagnostic: float(None) raises
TypeError, which the source does not catch (it only catches ValueError),
so validate raises instead of returning. -/
theorem c2_float_none_raises_typeerror :
    Validator.validate (fun _ => true) itemC2 =
      Except.error PyErr.typeError := by
  rfl

/-- C8: a completed validation pass leaves the input record unchanged —
every field of the item equals its value at call time; no checker mutates
the record. -/
theorem c8_no_mutation (schemaOk : String → Bool) (s s' : VState)
    (h : Validator.run schemaOk s = Except.ok s') :
    s'.item.geometry = s.item.geometry ∧
    s'.item.bbox = s.item.bbox ∧
    s'.item.datetime = s.item.datetime ∧
    s'.item.properties = s.item.properties ∧
    s'.item.assets = s.item.assets ∧
    s'.item.links = s.item.links ∧
    s'.item.stac_extensions = s.item.stac_extensions ∧
    s'.item = s.item := by
  have hitem := (Validator.run_spec schemaOk s s' h).1
  rw [hitem]
  exact ⟨rfl, rfl, rfl, rfl, rfl, rfl, rfl, rfl⟩

/-- A minimal item used by several witnesses. -/
def itemMinW : Item := {}

/-- The state a full run on the minimal item ends in. -/
def sMinW : VState :=
  (Validator.run (fun _ => true)
    { item := itemMinW, results := [] }).toOption.getD
    { item := itemMinW, results := [] }

/-- Witness for C8 at a concrete input. -/
theorem c8_no_mutation_witness :
    Validator.run (fun _ => true) { item := itemMinW, results := [] } =
      Except.ok sMinW ∧
    sMinW.item = itemMinW := by
  refine ⟨by rfl, ?_⟩
  exact (c8_no_mutation (fun _ => true)
    { item := itemMinW, results := [] } sMinW (by rfl)).2.2.2.2.2.2.2

/-- C10: the constellation case rule fires exactly when the value is a
truthy string containing an uppercase character: an absent constellation
or an empty or fully-lowercase string produces no diagnostic, and an
uppercase-containing string produces the single lowercase Error. -/
theorem c10_constellation_case_rule (item : Item)
    (schemaOk : String → Bool) (r : List (String × Result))
    (h : Validator.validate schemaOk item = Except.ok r) :
    (item.property "constellation" = PyValue.null →
      resultsFor "constellation" r = []) ∧
    (∀ sv : String, item.property "constellation" = PyValue.s sv →
      resultsFor "constellation" r =
        (if !sv.isEmpty && sv.toList.any Char.isUpper then
          [mkError ("constellation must be lowercase: " ++ sv)]
         else [])) := by
  obtain ⟨seen, hr⟩ := Validator.validate_spec schemaOk item r h
  subst hr
  rw [resultsFor_append, resultsFor_append, resultsFor_append,
    resultsFor_append,
    resultsFor_extensionsContrib_ne _ schemaOk item (by decide),
    resultsFor_stacItemsContrib_ne _ item (by decide) (by decide),
    resultsFor_itemPropertiesContrib_constellation item,
    resultsFor_linksContrib_ne _ item (by decide) (by decide) (by decide)
      (by decide) (by decide) (by decide) (by decide) (by decide),
    resultsFor_assetsContrib_ne _ seen (by decide) (by decide) (by decide)
      (by decide) (by decide)]
  simp only [List.append_nil, List.nil_append]
  constructor
  · intro hnull
    simp [lowercaseContrib, hnull, PyValue.null, resultsFor]
  · intro sv hsv
    simp only [lowercaseContrib, hsv, PyValue.s]
    by_cases hc : (!sv.isEmpty && sv.toList.any Char.isUpper) = true
    · rw [if_pos hc, if_pos hc]
      exact resultsFor_single_eq _ _
    · rw [if_neg hc, if_neg hc]
      rfl

/-- The C10 witness record: an uppercase constellation value. -/
def itemW10 : Item :=
  { properties := [("constellation", PyValue.s "Sentinel-2")] }

/-- The result set of validating the C10 witness record. -/
def rsW10 : List (String × Result) :=
  (Validator.validate (fun _ => true) itemW10).toOption.getD []

/-- Witness for C10 at a concrete input. -/
theorem c10_constellation_case_rule_witness :
    Validator.validate (fun _ => true) itemW10 = Except.ok rsW10 ∧
    itemW10.property "constellation" = PyValue.s "Sentinel-2" ∧
    resultsFor "constellation" rsW10 =
      [mkError "constellation must be lowercase: Sentinel-2"] := by
  refine ⟨by rfl, by rfl, ?_⟩
  have hx := (c10_constellation_case_rule itemW10 (fun _ => true) rsW10
    (by rfl)).2 "Sentinel-2" (by rfl)
  rw [hx]
  rfl

lemma resultsFor_linksContrib_no_variant (key : String) (item : Item)
    (hst : itemIsST item = false) (hsr : itemIsSR item = false)
    (h1 : "links[rel=" ++ "card4l-document" ++ "]" ≠ key)
    (h2 : "about" ≠ key)
    (h3 : "links[rel=" ++ "access" ++ "]" ≠ key) :
    resultsFor key (linksContrib item) = [] := by
  unfold linksContrib
  rw [resultsFor_append, resultsFor_append, resultsFor_append,
    resultsFor_checkLinkContrib_ne key _ _ _ item h1,
    resultsFor_algorithmsContrib_ne key item h2,
    resultsFor_checkLinkContrib_ne key _ _ _ item h3,
    if_neg (by simp [hst]), if_neg (by simp [hsr])]
  rfl

/-- Counts the results under the northern geometric-accuracy key of a
validation outcome. -/
def northKeyCount (e : Except PyErr (List (String × Result))) : Option Nat :=
  match e with
  | Except.ok r =>
      Option.some (resultsFor "card4l:northern_geometric_accuacy" r).length
  | Except.error _ => Option.none

/-- The C3 record: the northern geometric-accuracy property is entirely
absent. -/
def itemC3 : Item := {}

/-- C3 counterexample: on a record without the northern geometric-accuracy
property, validate returns normally but the rule emits TWO Errors under
the key of that property (one per sub-field), not exactly one as claimed. -/
theorem c3_counterexample_two_results :
    northKeyCount (Validator.validate (fun _ => true) itemC3) =
      Option.some 2 := by
  rfl

/-- C3 (amended): when a geometric-accuracy property is entirely absent
the rule emits exactly two Errors under the key of that property, one
referencing each missing sub-field path (bias then stddev). -/
theorem c3_amended_missing_property_two_errors (item : Item)
    (schemaOk : String → Bool) (r : List (String × Result))
    (habs : truthy (item.property "card4l:northern_geometric_accuacy") = false)
    (h : Validator.validate schemaOk item = Except.ok r) :
    resultsFor "card4l:northern_geometric_accuacy" r =
      [mkError "expected property is missing: card4l:northern_geometric_accuacy.bias",
       mkError "expected property is missing: card4l:northern_geometric_accuacy.stddev"] := by
  obtain ⟨seen, hr⟩ := Validator.validate_spec schemaOk item r h
  subst hr
  rw [resultsFor_append, resultsFor_append, resultsFor_append,
    resultsFor_append,
    resultsFor_extensionsContrib_ne _ schemaOk item (by decide),
    resultsFor_stacItemsContrib_ne _ item (by decide) (by decide),
    resultsFor_itemPropertiesContrib_north item,
    resultsFor_linksContrib_ne _ item (by decide) (by decide) (by decide)
      (by decide) (by decide) (by decide) (by decide) (by decide),
    resultsFor_assetsContrib_ne _ seen (by decide) (by decide) (by decide)
      (by decide) (by decide)]
  simp only [List.append_nil, List.nil_append]
  unfold memberContrib
  rw [if_neg (by simp [habs]), if_neg (by simp [habs]),
    resultsFor_single_eq, resultsFor_single_eq]
  rfl

/-- The C3 amended-claim witness result set. -/
def rsW3 : List (String × Result) :=
  (Validator.validate (fun _ => true) itemC3).toOption.getD []

/-- Witness for the amended C3 at a concrete input. -/
theorem c3_amended_missing_property_two_errors_witness :
    truthy (itemC3.property "card4l:northern_geometric_accuacy") = false ∧
    Validator.validate (fun _ => true) itemC3 = Except.ok rsW3 ∧
    resultsFor "card4l:northern_geometric_accuacy" rsW3 =
      [mkError "expected property is missing: card4l:northern_geometric_accuacy.bias",
       mkError "expected property is missing: card4l:northern_geometric_accuacy.stddev"] :=
  ⟨by rfl, by rfl,
    c3_amended_missing_property_two_errors itemC3 (fun _ => true) rsW3
      (by rfl) (by rfl)⟩

/-- C9: a record lacking the card4l:specification property entirely is
reported only through the membership rule: one Error whose message shows
the actual value None against the expected set, and no separate missing
required property diagnostic for that property. -/
theorem c9_absent_specification_reported_by_membership (item : Item)
    (schemaOk : String → Bool) (r : List (String × Result))
    (habs : item.property "card4l:specification" = PyValue.null)
    (h : Validator.validate schemaOk item = Except.ok r) :
    resultsFor "card4l:specification" r =
      [mkError "card4l:specification is not an expected value: value=None, expected=[\x27SR\x27, \x27ST\x27]"] ∧
    ∀ res ∈ resultsFor "card4l:specification" r,
      res.message ≠ "missing required property: card4l:specification" := by
  obtain ⟨seen, hr⟩ := Validator.validate_spec schemaOk item r h
  subst hr
  rw [resultsFor_append, resultsFor_append, resultsFor_append,
    resultsFor_append,
    resultsFor_extensionsContrib_ne _ schemaOk item (by decide),
    resultsFor_stacItemsContrib_ne _ item (by decide) (by decide),
    resultsFor_itemPropertiesContrib_spec_key item,
    resultsFor_linksContrib_ne _ item (by decide) (by decide) (by decide)
      (by decide) (by decide) (by decide) (by decide) (by decide),
    resultsFor_assetsContrib_ne _ seen (by decide) (by decide) (by decide)
      (by decide) (by decide)]
  simp only [List.append_nil, List.nil_append]
  have hnotin : item.property "card4l:specification" ∉ SPECIFICATIONS := by
    rw [habs]; decide
  unfold propertyInContrib
  rw [if_neg hnotin, habs, resultsFor_single_eq]
  constructor
  · rfl
  · intro res hres
    simp only [List.mem_singleton] at hres
    subst hres
    decide

/-- C4: a record whose card4l:specification is not SR or ST gets exactly
one Error under the specification key, and none of the variant-conditional
link rules fires: the five variant link keys carry no diagnostics. -/
theorem c4_invalid_specification_no_variant_links (item : Item)
    (schemaOk : String → Bool) (r : List (String × Result))
    (hspec : item.property "card4l:specification" ∉ SPECIFICATIONS)
    (h : Validator.validate schemaOk item = Except.ok r) :
    resultsFor "card4l:specification" r =
      [mkError ("card4l:specification is not an expected value: value=" ++
        pyStr (item.property "card4l:specification") ++
        ", expected=[" ++
        String.intercalate ", " (SPECIFICATIONS.map pyReprV) ++ "]")] ∧
    resultsFor "links[rel=atmosphere-emissivity]" r = [] ∧
    resultsFor "links[rel=measurement-normalization]" r = [] ∧
    resultsFor "links[rel=atmospheric-scattering]" r = [] ∧
    resultsFor "links[rel=water-vapor]" r = [] ∧
    resultsFor "links[rel=ozone]" r = [] := by
  obtain ⟨seen, hr⟩ := Validator.validate_spec schemaOk item r h
  subst hr
  have hst : itemIsST item = false := by
    unfold itemIsST
    simp only [decide_eq_false_iff_not]
    intro hEq
    exact hspec (by rw [hEq]; decide)
  have hsr : itemIsSR item = false := by
    unfold itemIsSR
    simp only [decide_eq_false_iff_not]
    intro hEq
    exact hspec (by rw [hEq]; decide)
  refine ⟨?_, ?_, ?_, ?_, ?_, ?_⟩
  · rw [resultsFor_append, resultsFor_append, resultsFor_append,
      resultsFor_append,
      resultsFor_extensionsContrib_ne _ schemaOk item (by decide),
      resultsFor_stacItemsContrib_ne _ item (by decide) (by decide),
      resultsFor_itemPropertiesContrib_spec_key item,
      resultsFor_linksContrib_ne _ item (by decide) (by decide) (by decide)
        (by decide) (by decide) (by decide) (by decide) (by decide),
      resultsFor_assetsContrib_ne _ seen (by decide) (by decide) (by decide)
        (by decide) (by decide)]
    simp only [List.append_nil, List.nil_append]
    unfold propertyInContrib
    rw [if_neg hspec, resultsFor_single_eq]
    rfl
  all_goals
    (rw [resultsFor_append, resultsFor_append, resultsFor_append,
      resultsFor_append,
      resultsFor_extensionsContrib_ne _ schemaOk item (by decide),
      resultsFor_stacItemsContrib_ne _ item (by decide) (by decide),
      resultsFor_itemPropertiesContrib_ne _ item (by decide) (by decide)
        (by decide) (by decide) (by decide) (by decide) (by decide)
        (by decide) (by decide) (by decide) (by decide) (by decide)
        (by decide) (by decide) (by decide) (by decide),
      resultsFor_linksContrib_no_variant _ item hst hsr (by decide)
        (by decide) (by decide),
      resultsFor_assetsContrib_ne _ seen (by decide) (by decide) (by decide)
        (by decide) (by decide)]
     rfl)

/-- The C9 witness record: no properties at all. -/
def itemW9 : Item := {}

/-- The result set of validating the C9 witness record. -/
def rsW9 : List (String × Result) :=
  (Validator.validate (fun _ => true) itemW9).toOption.getD []

/-- Witness for C9 at a concrete input. -/
theorem c9_absent_specification_reported_by_membership_witness :
    itemW9.property "card4l:specification" = PyValue.null ∧
    Validator.validate (fun _ => true) itemW9 = Except.ok rsW9 ∧
    resultsFor "card4l:specification" rsW9 =
      [mkError "card4l:specification is not an expected value: value=None, expected=[\x27SR\x27, \x27ST\x27]"] := by
  refine ⟨by rfl, by rfl, ?_⟩
  exact (c9_absent_specification_reported_by_membership itemW9
    (fun _ => true) rsW9 (by rfl) (by rfl)).1

/-- The C4 witness record: an unexpected specification value. -/
def itemW4 : Item :=
  { properties := [("card4l:specification", PyValue.s "XX")] }

/-- The result set of validating the C4 witness record. -/
def rsW4 : List (String × Result) :=
  (Validator.validate (fun _ => true) itemW4).toOption.getD []

/-- Witness for C4 at a concrete input. -/
theorem c4_invalid_specification_no_variant_links_witness :
    itemW4.property "card4l:specification" ∉ SPECIFICATIONS ∧
    Validator.validate (fun _ => true) itemW4 = Except.ok rsW4 ∧
    resultsFor "card4l:specification" rsW4 =
      [mkError "card4l:specification is not an expected value: value=XX, expected=[\x27SR\x27, \x27ST\x27]"] ∧
    resultsFor "links[rel=water-vapor]" rsW4 = [] := by
  refine ⟨by decide, by rfl, ?_, ?_⟩
  · have h1 := (c4_invalid_specification_no_variant_links itemW4
      (fun _ => true) rsW4 (by decide) (by rfl)).1
    rw [h1]
    rfl
  · exact (c4_invalid_specification_no_variant_links itemW4
      (fun _ => true) rsW4 (by decide) (by rfl)).2.2.2.2.1

/-- Number of diagnostics in a list carrying a given message. -/
def msgCount (target : String) (rs : List Result) : Nat :=
  rs.countP (fun res => res.message == target)

/-- The EO extension URI (first entry of REQUIRED_EXTENSIONS). -/
def extEO : String := "https://stac-extensions.github.io/eo/v1.0.0/schema.json"

/-- The projection extension URI. -/
def extProjection : String :=
  "https://stac-extensions.github.io/projection/v1.0.0/schema.json"

/-- The raster extension URI. -/
def extRaster : String :=
  "https://stac-extensions.github.io/raster/v1.1.0/schema.json"

/-- The view extension URI. -/
def extView : String :=
  "https://stac-extensions.github.io/view/v1.0.0/schema.json"

lemma REQUIRED_EXTENSIONS_eq :
    REQUIRED_EXTENSIONS = [extEO, extProjection, extRaster, extView] := rfl

lemma validate_extension_message (schemaOk : String → Bool) (item : Item)
    (e : String) (r : Result)
    (h : validate_extension schemaOk item e = Option.some r) :
    r.message = "object does not pass validation against " ++ e ∨
    r.message = "missing required extension: " ++ e := by
  unfold validate_extension at h
  repeat' split at h
  all_goals try (injection h with h)
  all_goals try subst h
  all_goals simp_all [mkError]

lemma validate_extension_absent (schemaOk : String → Bool) (item : Item)
    (e : String) (h : e ∉ item.stac_extensions) :
    validate_extension schemaOk item e =
      Option.some (mkError ("missing required extension: " ++ e)) := by
  unfold validate_extension
  rw [if_neg h]

lemma validate_extension_present_ok (schemaOk : String → Bool) (item : Item)
    (e : String) (hmem : e ∈ item.stac_extensions)
    (hok : schemaOk e = true) :
    validate_extension schemaOk item e = Option.none := by
  unfold validate_extension
  rw [if_pos hmem, if_pos hok]

lemma msgCount_filterMap_cons_ne (target : String) (schemaOk : String → Bool)
    (item : Item) (e : String) (rest : List String)
    (h1 : ("missing required extension: " ++ e == target) = false)
    (h2 : ("object does not pass validation against " ++ e == target) = false) :
    msgCount target
      (List.filterMap (validate_extension schemaOk item) (e :: rest)) =
    msgCount target (List.filterMap (validate_extension schemaOk item) rest) := by
  rw [List.filterMap_cons]
  cases hv : validate_extension schemaOk item e with
  | none => rfl
  | some r =>
    cases validate_extension_message schemaOk item e r hv with
    | inl hm => simp [msgCount, List.countP_cons, hm, h2]
    | inr hm => simp [msgCount, List.countP_cons, hm, h1]

lemma msgCount_fm_absent_head (target : String) (schemaOk : String → Bool)
    (item : Item) (e : String) (rest : List String)
    (habs : e ∉ item.stac_extensions)
    (hhit : ("missing required extension: " ++ e == target) = true) :
    msgCount target
      (List.filterMap (validate_extension schemaOk item) (e :: rest)) =
    1 + msgCount target (List.filterMap (validate_extension schemaOk item) rest) := by
  rw [List.filterMap_cons, validate_extension_absent schemaOk item e habs]
  simp [msgCount, List.countP_cons, mkError, hhit, Nat.add_comm]

lemma msgCount_fm_absent_head_ne (target : String) (schemaOk : String → Bool)
    (item : Item) (e : String) (rest : List String)
    (habs : e ∉ item.stac_extensions)
    (hne : ("missing required extension: " ++ e == target) = false) :
    msgCount target
      (List.filterMap (validate_extension schemaOk item) (e :: rest)) =
    msgCount target (List.filterMap (validate_extension schemaOk item) rest) := by
  rw [List.filterMap_cons, validate_extension_absent schemaOk item e habs]
  simp [msgCount, List.countP_cons, mkError, hne]

lemma msgCount_fm_present_ok_head (target : String) (schemaOk : String → Bool)
    (item : Item) (e : String) (rest : List String)
    (hmem : e ∈ item.stac_extensions) (hok : schemaOk e = true) :
    msgCount target
      (List.filterMap (validate_extension schemaOk item) (e :: rest)) =
    msgCount target (List.filterMap (validate_extension schemaOk item) rest) := by
  rw [List.filterMap_cons, validate_extension_present_ok schemaOk item e hmem hok]

/-- C5: for each required extension identifier: if it is absent from the
declared extension set, the extension phase emits exactly one Error
"missing required extension" naming that identifier under the extension
key and no schema-validation diagnostic for it; if it is present and the
external schema validator succeeds, no diagnostic names it at all. -/
theorem c5_missing_extension_single_error (item : Item)
    (schemaOk : String → Bool) (ext : String) (r : List (String × Result))
    (hext : ext ∈ REQUIRED_EXTENSIONS)
    (h : Validator.validate schemaOk item = Except.ok r) :
    (ext ∉ item.stac_extensions →
      msgCount ("missing required extension: " ++ ext)
        (resultsFor "extension" r) = 1 ∧
      msgCount ("object does not pass validation against " ++ ext)
        (resultsFor "extension" r) = 0) ∧
    (ext ∈ item.stac_extensions → schemaOk ext = true →
      msgCount ("missing required extension: " ++ ext)
        (resultsFor "extension" r) = 0 ∧
      msgCount ("object does not pass validation against " ++ ext)
        (resultsFor "extension" r) = 0) := by
  obtain ⟨seen, hr⟩ := Validator.validate_spec schemaOk item r h
  subst hr
  rw [resultsFor_append, resultsFor_append, resultsFor_append,
    resultsFor_append,
    resultsFor_extensionsContrib_self schemaOk item,
    resultsFor_stacItemsContrib_ne _ item (by decide) (by decide),
    resultsFor_itemPropertiesContrib_ne _ item (by decide) (by decide) (by decide) (by decide) (by decide) (by decide) (by decide) (by decide) (by decide) (by decide) (by decide) (by decide) (by decide) (by decide) (by decide) (by decide),
    resultsFor_linksContrib_ne _ item (by decide) (by decide) (by decide) (by decide) (by decide) (by decide) (by decide) (by decide),
    resultsFor_assetsContrib_ne _ seen (by decide) (by decide) (by decide) (by decide) (by decide)]
  simp only [List.append_nil]
  rw [REQUIRED_EXTENSIONS_eq] at hext ⊢
  simp only [List.mem_cons, List.not_mem_nil, or_false] at hext
  rcases hext with rfl | rfl | rfl | rfl
  · refine ⟨fun habs => ⟨?_, ?_⟩, fun hmem hok => ⟨?_, ?_⟩⟩
    · rw [msgCount_fm_absent_head _ schemaOk item _ _ habs (by decide),
        msgCount_filterMap_cons_ne _ schemaOk item _ _ (by decide) (by decide),
        msgCount_filterMap_cons_ne _ schemaOk item _ _ (by decide) (by decide),
        msgCount_filterMap_cons_ne _ schemaOk item _ _ (by decide) (by decide)]
      rfl
    · rw [msgCount_fm_absent_head_ne _ schemaOk item _ _ habs (by decide),
        msgCount_filterMap_cons_ne _ schemaOk item _ _ (by decide) (by decide),
        msgCount_filterMap_cons_ne _ schemaOk item _ _ (by decide) (by decide),
        msgCount_filterMap_cons_ne _ schemaOk item _ _ (by decide) (by decide)]
      rfl
    · rw [msgCount_fm_present_ok_head _ schemaOk item _ _ hmem hok,
        msgCount_filterMap_cons_ne _ schemaOk item _ _ (by decide) (by decide),
        msgCount_filterMap_cons_ne _ schemaOk item _ _ (by decide) (by decide),
        msgCount_filterMap_cons_ne _ schemaOk item _ _ (by decide) (by decide)]
      rfl
    · rw [msgCount_fm_present_ok_head _ schemaOk item _ _ hmem hok,
        msgCount_filterMap_cons_ne _ schemaOk item _ _ (by decide) (by decide),
        msgCount_filterMap_cons_ne _ schemaOk item _ _ (by decide) (by decide),
        msgCount_filterMap_cons_ne _ schemaOk item _ _ (by decide) (by decide)]
      rfl
  · refine ⟨fun habs => ⟨?_, ?_⟩, fun hmem hok => ⟨?_, ?_⟩⟩
    · rw [msgCount_filterMap_cons_ne _ schemaOk item _ _ (by decide) (by decide),
        msgCount_fm_absent_head _ schemaOk item _ _ habs (by decide),
        msgCount_filterMap_cons_ne _ schemaOk item _ _ (by decide) (by decide),
        msgCount_filterMap_cons_ne _ schemaOk item _ _ (by decide) (by decide)]
      rfl
    · rw [msgCount_filterMap_cons_ne _ schemaOk item _ _ (by decide) (by decide),
        msgCount_fm_absent_head_ne _ schemaOk item _ _ habs (by decide),
        msgCount_filterMap_cons_ne _ schemaOk item _ _ (by decide) (by decide),
        msgCount_filterMap_cons_ne _ schemaOk item _ _ (by decide) (by decide)]
      rfl
    · rw [msgCount_filterMap_cons_ne _ schemaOk item _ _ (by decide) (by decide),
        msgCount_fm_present_ok_head _ schemaOk item _ _ hmem hok,
        msgCount_filterMap_cons_ne _ schemaOk item _ _ (by decide) (by decide),
        msgCount_filterMap_cons_ne _ schemaOk item _ _ (by decide) (by decide)]
      rfl
    · rw [msgCount_filterMap_cons_ne _ schemaOk item _ _ (by decide) (by decide),
        msgCount_fm_present_ok_head _ schemaOk item _ _ hmem hok,
        msgCount_filterMap_cons_ne _ schemaOk item _ _ (by decide) (by decide),
        msgCount_filterMap_cons_ne _ schemaOk item _ _ (by decide) (by decide)]
      rfl
  · refine ⟨fun habs => ⟨?_, ?_⟩, fun hmem hok => ⟨?_, ?_⟩⟩
    · rw [msgCount_filterMap_cons_ne _ schemaOk item _ _ (by decide) (by decide),
        msgCount_filterMap_cons_ne _ schemaOk item _ _ (by decide) (by decide),
        msgCount_fm_absent_head _ schemaOk item _ _ habs (by decide),
        msgCount_filterMap_cons_ne _ schemaOk item _ _ (by decide) (by decide)]
      rfl
    · rw [msgCount_filterMap_cons_ne _ schemaOk item _ _ (by decide) (by decide),
        msgCount_filterMap_cons_ne _ schemaOk item _ _ (by decide) (by decide),
        msgCount_fm_absent_head_ne _ schemaOk item _ _ habs (by decide),
        msgCount_filterMap_cons_ne _ schemaOk item _ _ (by decide) (by decide)]
      rfl
    · rw [msgCount_filterMap_cons_ne _ schemaOk item _ _ (by decide) (by decide),
        msgCount_filterMap_cons_ne _ schemaOk item _ _ (by decide) (by decide),
        msgCount_fm_present_ok_head _ schemaOk item _ _ hmem hok,
        msgCount_filterMap_cons_ne _ schemaOk item _ _ (by decide) (by decide)]
      rfl
    · rw [msgCount_filterMap_cons_ne _ schemaOk item _ _ (by decide) (by decide),
        msgCount_filterMap_cons_ne _ schemaOk item _ _ (by decide) (by decide),
        msgCount_fm_present_ok_head _ schemaOk item _ _ hmem hok,
        msgCount_filterMap_cons_ne _ schemaOk item _ _ (by decide) (by decide)]
      rfl
  · refine ⟨fun habs => ⟨?_, ?_⟩, fun hmem hok => ⟨?_, ?_⟩⟩
    · rw [msgCount_filterMap_cons_ne _ schemaOk item _ _ (by decide) (by decide),
        msgCount_filterMap_cons_ne _ schemaOk item _ _ (by decide) (by decide),
        msgCount_filterMap_cons_ne _ schemaOk item _ _ (by decide) (by decide),
        msgCount_fm_absent_head _ schemaOk item _ _ habs (by decide)]
      rfl
    · rw [msgCount_filterMap_cons_ne _ schemaOk item _ _ (by decide) (by decide),
        msgCount_filterMap_cons_ne _ schemaOk item _ _ (by decide) (by decide),
        msgCount_filterMap_cons_ne _ schemaOk item _ _ (by decide) (by decide),
        msgCount_fm_absent_head_ne _ schemaOk item _ _ habs (by decide)]
      rfl
    · rw [msgCount_filterMap_cons_ne _ schemaOk item _ _ (by decide) (by decide),
        msgCount_filterMap_cons_ne _ schemaOk item _ _ (by decide) (by decide),
        msgCount_filterMap_cons_ne _ schemaOk item _ _ (by decide) (by decide),
        msgCount_fm_present_ok_head _ schemaOk item _ _ hmem hok]
      rfl
    · rw [msgCount_filterMap_cons_ne _ schemaOk item _ _ (by decide) (by decide),
        msgCount_filterMap_cons_ne _ schemaOk item _ _ (by decide) (by decide),
        msgCount_filterMap_cons_ne _ schemaOk item _ _ (by decide) (by decide),
        msgCount_fm_present_ok_head _ schemaOk item _ _ hmem hok]
      rfl

/-- The C5 witness record: declares the EO extension only. -/
def itemW5 : Item :=
  { stac_extensions :=
      ["https://stac-extensions.github.io/eo/v1.0.0/schema.json"] }

/-- The result set of validating the C5 witness record. -/
def rsW5 : List (String × Result) :=
  (Validator.validate (fun _ => true) itemW5).toOption.getD []

/-- Witness for C5 at a concrete input (the raster extension is absent). -/
theorem c5_missing_extension_single_error_witness :
    extRaster ∈ REQUIRED_EXTENSIONS ∧
    extRaster ∉ itemW5.stac_extensions ∧
    Validator.validate (fun _ => true) itemW5 = Except.ok rsW5 ∧
    msgCount ("missing required extension: " ++ extRaster)
      (resultsFor "extension" rsW5) = 1 ∧
    msgCount ("object does not pass validation against " ++ extRaster)
      (resultsFor "extension" rsW5) = 0 := by
  refine ⟨by decide, by decide, by rfl, ?_, ?_⟩
  · exact ((c5_missing_extension_single_error itemW5 (fun _ => true)
      extRaster rsW5 (by decide) (by rfl)).1 (by decide)).1
  · exact ((c5_missing_extension_single_error itemW5 (fun _ => true)
      extRaster rsW5 (by decide) (by rfl)).1 (by decide)).2

/-- C6: a record without an access link gets a Warning "missing link"
under its link key; without a card4l-document link an Error "missing
link"; and a card4l-document link whose media type is neither the Word
document type nor application/pdf gets an Error "invalid media type". -/
theorem c6_document_and_access_link_rules (item : Item)
    (schemaOk : String → Bool) (r : List (String × Result))
    (h : Validator.validate schemaOk item = Except.ok r) :
    (get_single_link item "access" = Option.none →
      resultsFor "links[rel=access]" r =
        [{ severity := Severity.warning, message := "missing link" }]) ∧
    (get_single_link item "card4l-document" = Option.none →
      resultsFor "links[rel=card4l-document]" r =
        [{ severity := Severity.error, message := "missing link" }]) ∧
    (∀ link : Link,
      get_single_link item "card4l-document" = Option.some link →
      link.mediaType ∉
        [Option.some "application/vnd.openxmlformats-officedocument.wordprocessingml.document",
         Option.some "application/pdf"] →
      resultsFor "links[rel=card4l-document]" r =
        [{ severity := Severity.error,
           message := "invalid media type: actual=" ++
             optStr link.mediaType ++ ", expected=" ++
             strListRepr
               [ "application/vnd.openxmlformats-officedocument.wordprocessingml.document",
                 "application/pdf" ] }]) := by
  obtain ⟨seen, hr⟩ := Validator.validate_spec schemaOk item r h
  subst hr
  have hacc := resultsFor_linksContrib_access item
  rw [show ("links[rel=" ++ "access" ++ "]") = "links[rel=access]"
    from rfl] at hacc
  have hdoc := resultsFor_linksContrib_card4l_document item
  rw [show ("links[rel=" ++ "card4l-document" ++ "]") =
    "links[rel=card4l-document]" from rfl] at hdoc
  refine ⟨?_, ?_, ?_⟩
  · intro hmiss
    rw [resultsFor_append, resultsFor_append, resultsFor_append,
      resultsFor_append,
      resultsFor_extensionsContrib_ne _ schemaOk item (by decide),
      resultsFor_stacItemsContrib_ne _ item (by decide) (by decide),
      resultsFor_itemPropertiesContrib_ne _ item (by decide) (by decide)
        (by decide) (by decide) (by decide) (by decide) (by decide)
        (by decide) (by decide) (by decide) (by decide) (by decide)
        (by decide) (by decide) (by decide) (by decide),
      hacc,
      resultsFor_assetsContrib_ne _ seen (by decide) (by decide) (by decide)
        (by decide) (by decide)]
    simp only [List.append_nil, List.nil_append]
    unfold checkLinkContrib
    rw [hmiss]
    rfl
  · intro hmiss
    rw [resultsFor_append, resultsFor_append, resultsFor_append,
      resultsFor_append,
      resultsFor_extensionsContrib_ne _ schemaOk item (by decide),
      resultsFor_stacItemsContrib_ne _ item (by decide) (by decide),
      resultsFor_itemPropertiesContrib_ne _ item (by decide) (by decide)
        (by decide) (by decide) (by decide) (by decide) (by decide)
        (by decide) (by decide) (by decide) (by decide) (by decide)
        (by decide) (by decide) (by decide) (by decide),
      hdoc,
      resultsFor_assetsContrib_ne _ seen (by decide) (by decide) (by decide)
        (by decide) (by decide)]
    simp only [List.append_nil, List.nil_append]
    unfold checkLinkContrib
    rw [hmiss]
    rfl
  · intro link hlink hmt
    have hmm : mediaTypeMismatch
        [ "application/vnd.openxmlformats-officedocument.wordprocessingml.document",
          "application/pdf" ] link = true := by
      unfold mediaTypeMismatch
      cases hmt2 : link.mediaType with
      | none => rfl
      | some mt =>
        have h1 : mt ≠
            "application/vnd.openxmlformats-officedocument.wordprocessingml.document" :=
          fun he => hmt (by rw [hmt2, he]; exact List.mem_cons_self _ _)
        have h2 : mt ≠ "application/pdf" :=
          fun he => hmt (by rw [hmt2, he]; simp)
        simp [h1, h2]
    rw [resultsFor_append, resultsFor_append, resultsFor_append,
      resultsFor_append,
      resultsFor_extensionsContrib_ne _ schemaOk item (by decide),
      resultsFor_stacItemsContrib_ne _ item (by decide) (by decide),
      resultsFor_itemPropertiesContrib_ne _ item (by decide) (by decide)
        (by decide) (by decide) (by decide) (by decide) (by decide)
        (by decide) (by decide) (by decide) (by decide) (by decide)
        (by decide) (by decide) (by decide) (by decide),
      hdoc,
      resultsFor_assetsContrib_ne _ seen (by decide) (by decide) (by decide)
        (by decide) (by decide)]
    simp only [List.append_nil, List.nil_append]
    unfold checkLinkContrib
    rw [hlink]
    dsimp only
    rw [if_pos hmm]
    rfl

/-- The C6 witness record: no links at all. -/
def itemW6 : Item := {}

/-- The result set of validating the C6 witness record. -/
def rsW6 : List (String × Result) :=
  (Validator.validate (fun _ => true) itemW6).toOption.getD []

/-- Witness for C6 at a concrete input. -/
theorem c6_document_and_access_link_rules_witness :
    get_single_link itemW6 "access" = Option.none ∧
    get_single_link itemW6 "card4l-document" = Option.none ∧
    Validator.validate (fun _ => true) itemW6 = Except.ok rsW6 ∧
    resultsFor "links[rel=access]" rsW6 =
      [{ severity := Severity.warning, message := "missing link" }] ∧
    resultsFor "links[rel=card4l-document]" rsW6 =
      [{ severity := Severity.error, message := "missing link" }] := by
  refine ⟨by rfl, by rfl, by rfl, ?_, ?_⟩
  · exact (c6_document_and_access_link_rules itemW6 (fun _ => true) rsW6
      (by rfl)).1 (by rfl)
  · exact (c6_document_and_access_link_rules itemW6 (fun _ => true) rsW6
      (by rfl)).2.1 (by rfl)
